import Mathlib

/-!
# Verification of the Keccak-512 digest library

Shallow embedding of `src/lib.rs` (crate `keccak`): the Keccak-f[1600]
permutation core, the lane codec, the sponge driver over a buffered byte
stream, and the `Digest` value type with its hex rendering.

Machine integers (`u64` lanes, `u8` bytes, `usize` indices) are modelled as
`Nat` with explicit reduction modulo `2 ^ 64` where the Rust code relies on
64-bit wraparound (only in `rotate_left`; every other lane operation is a
bitwise operation that preserves the `< 2 ^ 64` bound).  A Rust `[T; n]`
array is modelled as a `List Nat`; in-place index assignment becomes
`List.set` and index reads become `List.getD`.  The fallible stream is
modelled as the list of results that successive `fill_buf` calls produce.
-/

namespace KeccakLib

/-- One 64-bit lane (`type Lane = u64`), as a `Nat` kept below `2 ^ 64`. -/
abbrev Lane := Nat

/-- `const LANES: usize = 25`. -/
def LANES : Nat := 25

/-- `const ROUNDS: usize = 24`. -/
def ROUNDS : Nat := 24

/-- `const OUTPUT_LEN: usize = 64`. -/
def OUTPUT_LEN : Nat := 64

/-- `const R_BYTES: usize = (LANES * 8) - (2 * OUTPUT_LEN)`. -/
def R_BYTES : Nat := (LANES * 8) - (2 * OUTPUT_LEN)

/-- The 25-lane state (`type State = [Lane; LANES]`). -/
abbrev State := List Lane

/-- `static ROUND_CONSTANTS: [Lane; ROUNDS]`. -/
def ROUND_CONSTANTS : List Lane := [
  0x0000000000000001, 0x0000000000008082, 0x800000000000808a,
  0x8000000080008000, 0x000000000000808b, 0x0000000080000001,
  0x8000000080008081, 0x8000000000008009, 0x000000000000008a,
  0x0000000000000088, 0x0000000080008009, 0x000000008000000a,
  0x000000008000808b, 0x800000000000008b, 0x8000000000008089,
  0x8000000000008003, 0x8000000000008002, 0x8000000000000080,
  0x000000000000800a, 0x800000008000000a, 0x8000000080008081,
  0x8000000000008080, 0x0000000080000001, 0x8000000080008008]

/-- `static ROTATION_OFFSETS: [u8; LANES-1]`. -/
def ROTATION_OFFSETS : List Nat := [
   1,  3,  6, 10, 15, 21, 28, 36, 45, 55,  2, 14,
  27, 41, 56,  8, 25, 43, 62, 18, 39, 61, 20, 44]

/-- `static PI_LOOKUP: [u8; LANES-1]`. -/
def PI_LOOKUP : List Nat := [
  10,  7, 11, 17, 18,  3,  5, 16,  8, 21, 24,  4,
  15, 23, 19, 13, 12,  2, 20, 14, 22,  9,  6,  1]

/-- `u64::rotate_left` on a lane value below `2 ^ 64`. -/
def rotl (x : Lane) (n : Nat) : Lane :=
  ((x <<< (n % 64)) ||| (x >>> (64 - n % 64))) % 2 ^ 64

/-- 64-bit bitwise complement (Rust `!` on `u64`). -/
def comp64 (x : Lane) : Lane := x ^^^ (2 ^ 64 - 1)

/-- The theta step of `round`: per-column parities `c`, then
`d = c[(i+4) % 5] ^ c[(i+1) % 5].rotate_left(1)` XORed into every lane of
column `i`. -/
def theta (a : State) : State :=
  let c : List Lane := (List.range 5).map fun i =>
    a.getD i 0 ^^^ a.getD (i + 5) 0 ^^^ a.getD (i + 10) 0 ^^^
      a.getD (i + 15) 0 ^^^ a.getD (i + 20) 0
  (List.range 25).map fun k =>
    a.getD k 0 ^^^ (c.getD ((k % 5 + 4) % 5) 0 ^^^ rotl (c.getD ((k % 5 + 1) % 5) 0) 1)

/-- The fused rho/pi step of `round`: the wanderer walk seeded from lane 1,
driven by `PI_LOOKUP` and `ROTATION_OFFSETS`.  The loop body
`let j = PI_LOOKUP[i]; let rotated = wanderer.rotate_left(ROTATION_OFFSETS[i]);
wanderer = a[j]; a[j] = rotated` is carried by the recursion's state/wanderer
accumulators. -/
def rhoPiAux : List Nat → State → Lane → State
  | [], a, _ => a
  | i :: is, a, w =>
    rhoPiAux is (a.set (PI_LOOKUP.getD i 0) (rotl w (ROTATION_OFFSETS.getD i 0)))
      (a.getD (PI_LOOKUP.getD i 0) 0)

def rhoPi (a : State) : State := rhoPiAux (List.range (LANES - 1)) a (a.getD 1 0)

/-- The chi step of `round`: per row of five lanes, from a snapshot `b`,
`a[i+j] ^= !b[(i+1) % 5] & b[(i+2) % 5]`. -/
def chi (a : State) : State :=
  (List.range 25).map fun k =>
    a.getD k 0 ^^^
      (comp64 (a.getD ((k % 5 + 1) % 5 + 5 * (k / 5)) 0) &&&
        a.getD ((k % 5 + 2) % 5 + 5 * (k / 5)) 0)

/-- The iota step of `round`: `a[0] ^= ROUND_CONSTANTS[round]`. -/
def iota (a : State) (r : Nat) : State :=
  a.set 0 (a.getD 0 0 ^^^ ROUND_CONSTANTS.getD r 0)

/-- `fn round(a: &mut State, round: usize)`: theta, rho+pi, chi, iota in
strict order. -/
def round (a : State) (r : Nat) : State :=
  iota (chi (rhoPi (theta a))) r

/-- `fn keccak_f(a: &mut State)`: 24 rounds in order. -/
def keccak_f (a : State) : State :=
  (List.range ROUNDS).foldl round a

/-- `fn xor_lanes(a: &mut State, buf: &[u8])`: XOR the first `R_BYTES / 8`
little-endian 8-byte groups of `buf` into the leading lanes of the state. -/
def laneFromBytes (buf : List Nat) (off : Nat) : Lane :=
  (List.range 8).foldl (fun acc k => acc + buf.getD (off + k) 0 * 2 ^ (8 * k)) 0

def xorLanesAux (buf : List Nat) : List Nat → State → State
  | [], a => a
  | i :: is, a => xorLanesAux buf is (a.set i (a.getD i 0 ^^^ laneFromBytes buf (8 * i)))

def xor_lanes (a : State) (buf : List Nat) : State :=
  xorLanesAux buf (List.range (R_BYTES >>> 3)) a

/-- The final-block construction inside `keccak_512`: a zeroed `R_BYTES`
buffer, the `consumed` bytes copied in, `last[consumed] = 1`, then
`last[R_BYTES-1] |= 0x80`. -/
def padBlock (chunk : List Nat) : List Nat :=
  let l1 := (List.range chunk.length).foldl
    (fun l i => l.set i (chunk.getD i 0)) (List.replicate R_BYTES 0)
  let l2 := l1.set chunk.length 1
  l2.set (R_BYTES - 1) (l2.getD (R_BYTES - 1) 0 ||| 0x80)

/-- One result of a `fill_buf` call on the buffered input stream: either up
to `R_BYTES` available bytes, or an I/O error (identified by a code). -/
abbrev ReadResult := Except Nat (List Nat)

/-- The absorb loop of `keccak_512`, over the successive `fill_buf` results.
An exhausted stream keeps returning an empty buffer, so the empty read list
behaves like a final read of zero bytes.  A full block is XORed in and the
loop continues; a short block (fewer than `R_BYTES` bytes) is padded, XORed
in, permuted, and the loop stops; an error aborts immediately. -/
def keccak512Loop (st : State) (reads : List ReadResult) : Except Nat State :=
  match reads with
  | [] => Except.ok (keccak_f (xor_lanes st (padBlock [])))
  | Except.error e :: _ => Except.error e
  | Except.ok buf :: rest =>
    if buf.length < R_BYTES then
      Except.ok (keccak_f (xor_lanes st (padBlock buf)))
    else
      keccak512Loop (keccak_f (xor_lanes st buf)) rest

/-- The squeeze: the first `OUTPUT_LEN / 8` lanes written out little-endian
(`u64::to_le` plus the raw-pointer store). -/
def laneToBytes (x : Lane) : List Nat :=
  (List.range 8).map fun k => x >>> (8 * k) % 256

def extract (st : State) : List Nat :=
  ((List.range (OUTPUT_LEN / 8)).map fun i => laneToBytes (st.getD i 0)).flatten

/-- The all-zero initial state (`[0; LANES]`). -/
def state0 : State := List.replicate LANES 0

/-- The sequence of `fill_buf` results produced by an error-free byte
stream of contents `inp`, read through a `BufReader` of capacity
`R_BYTES`: full blocks while possible, then the short remainder (the
remainder is empty exactly when the length is a multiple of `R_BYTES`,
matching a `BufReader` whose final `fill_buf` returns no bytes). -/
def sliceReads (inp : List Nat) : List ReadResult :=
  (List.range (inp.length / R_BYTES)).map
      (fun i => Except.ok ((inp.drop (i * R_BYTES)).take R_BYTES))
    ++ [Except.ok (inp.drop (inp.length / R_BYTES * R_BYTES))]

/-- `Digest::keccak_512` run on an error-free in-memory byte stream; the
resulting 64 digest bytes. -/
def keccak_512 (inp : List Nat) : List Nat :=
  match keccak512Loop state0 (sliceReads inp) with
  | Except.ok st => extract st
  | Except.error _ => []

/-- `Digest::keccak_512` as the method on a `Digest` holding bytes `d`:
returns the `io::Result` outcome together with the digest bytes after the
call (`self` is only overwritten after the absorb loop succeeds). -/
def keccak512Method (d : List Nat) (reads : List ReadResult) :
    Except Nat Unit × List Nat :=
  match keccak512Loop state0 reads with
  | Except.ok st => (Except.ok (), extract st)
  | Except.error e => (Except.error e, d)

/-- `Digest::with_512`: starts from `Digest::zeroed()` and yields a digest
only on success. -/
def with_512 (reads : List ReadResult) : Except Nat (List Nat) :=
  match keccak512Method (List.replicate OUTPUT_LEN 0) reads with
  | (Except.ok _, d) => Except.ok d
  | (Except.error e, _) => Except.error e

/-- One lowercase hex digit (as produced by the `{:02x}` format). -/
def hexDigit (n : Nat) : Char :=
  if n < 10 then Char.ofNat (48 + n) else Char.ofNat (97 + (n - 10))

/-- `format!("{:02x}", byte)`: exactly two lowercase hex digits. -/
def byteHex (b : Nat) : List Char :=
  [hexDigit (b / 16), hexDigit (b % 16)]

/-- The `fmt::LowerHex` rendering of a digest's bytes, in order. -/
def lowerHex (d : List Nat) : String :=
  String.mk ((d.map byteHex).flatten)

/-- `fmt::Display for Digest` delegates to `fmt::LowerHex`. -/
def displayRender (d : List Nat) : String := lowerHex d

/-- `fmt::Debug for Digest` delegates to `fmt::LowerHex`. -/
def debugRender (d : List Nat) : String := lowerHex d

/-! ## Reference Keccak-f[1600], written from the specification's words

The spec describes each round in the classical 5×5 matrix form
(`(x, y) → index = x + 5y`): theta with column parities, the ρ rotation
offsets generated by the standard `(x, y) → (y, 2x + 3y)` walk with
triangular-number offsets, the π lane permutation
`B[y + 5·((2x + 3y) mod 5)] = rot(A[x + 5y])`, chi from a row snapshot, and
the round-constant injection.  These definitions follow that description,
independently of the fused table-driven walk in the code. -/

/-- The ρ rotation-offset table generated by the reference walk: start at
`(x, y) = (1, 0)`; at step `t` assign offset `(t+1)(t+2)/2 mod 64` to lane
`x + 5y` and move to `(y, (2x + 3y) mod 5)`.  Lane 0 keeps offset 0. -/
def rhoWalkOffsets : List Nat :=
  ((List.range 24).foldl
    (fun (p : List Nat × Nat × Nat) t =>
      (p.1.set (p.2.1 + 5 * p.2.2) ((t + 1) * (t + 2) / 2 % 64),
        p.2.2, (2 * p.2.1 + 3 * p.2.2) % 5))
    (List.replicate 25 0, 1, 0)).1

/-- The standard ρ rotation-offset table, indexed by `x + 5y` (the table of
FIPS 202 / the Keccak reference); proved below to be exactly what the
reference walk generates. -/
def rhoOffsets : List Nat :=
  [0, 1, 62, 28, 27] ++ [36, 44, 6, 55, 20] ++ [3, 10, 43, 25, 39] ++
    [41, 45, 15, 21, 8] ++ [18, 2, 61, 56, 14]

/-- Reference theta: `A[x,y] ^= C[x-1] ^ rot(C[x+1], 1)` with column
parities `C`. -/
def specTheta (a : State) : State :=
  let c : List Lane := (List.range 5).map fun x =>
    a.getD x 0 ^^^ a.getD (x + 5) 0 ^^^ a.getD (x + 10) 0 ^^^
      a.getD (x + 15) 0 ^^^ a.getD (x + 20) 0
  (List.range 25).map fun k =>
    a.getD k 0 ^^^ (c.getD ((k % 5 + 4) % 5) 0 ^^^ rotl (c.getD ((k % 5 + 1) % 5) 0) 1)

/-- Reference ρ+π: `B[y + 5·((2x + 3y) mod 5)] = rot(A[x + 5y], r[x + 5y])`
for every `(x, y)`, writing into a fresh state. -/
def specRhoPiAux (a : State) : List Nat → State → State
  | [], b => b
  | k :: ks, b =>
    specRhoPiAux a ks
      (b.set (k / 5 + 5 * ((2 * (k % 5) + 3 * (k / 5)) % 5))
        (rotl (a.getD k 0) (rhoOffsets.getD k 0)))

def specRhoPi (a : State) : State :=
  specRhoPiAux a ((List.range 25).drop 1) ((List.replicate 25 0).set 0 (a.getD 0 0))

/-- Reference chi: `A[x,y] = B[x,y] ^ (!B[x+1,y] & B[x+2,y])`. -/
def specChi (a : State) : State :=
  (List.range 25).map fun k =>
    a.getD k 0 ^^^
      (comp64 (a.getD ((k % 5 + 1) % 5 + 5 * (k / 5)) 0) &&&
        a.getD ((k % 5 + 2) % 5 + 5 * (k / 5)) 0)

/-- Reference iota. -/
def specIota (a : State) (r : Nat) : State :=
  a.set 0 (a.getD 0 0 ^^^ ROUND_CONSTANTS.getD r 0)

/-- One reference round: theta, ρ+π, chi, iota in strict order. -/
def specRound (a : State) (r : Nat) : State :=
  specIota (specChi (specRhoPi (specTheta a))) r

/-- The reference Keccak-f[1600]: exactly 24 rounds in order. -/
def specKeccakF (a : State) : State :=
  (List.range 24).foldl specRound a

/-! ## The 256-bit variant's parameters

Modelled from the spec: the structurally identical 256-bit engine is not
under `src/` (only the 512-bit engine is); the spec fixes its output
length at 32 bytes and its rate at `R_BYTES = 136`. -/

/-- Modelled from the spec: the 256-bit variant's output length in bytes. -/
def OUTPUT_LEN_256 : Nat := 32

/-- Modelled from the spec: the 256-bit variant's rate in bytes. -/
def R_BYTES_256 : Nat := 136

/-! ## Proof-side notions used by the claims -/

/-- A well-formed 1600-bit state: exactly 25 lanes, each below `2 ^ 64`. -/
def Valid (s : State) : Prop :=
  s.length = 25 ∧ ∀ x ∈ s, x < 2 ^ 64

/-- Column parities of a state, as a 5-periodic function. -/
def colParity (s : State) : Nat → Nat := fun i =>
  s.getD (i % 5) 0 ^^^ s.getD (i % 5 + 5) 0 ^^^ s.getD (i % 5 + 10) 0 ^^^
    s.getD (i % 5 + 15) 0 ^^^ s.getD (i % 5 + 20) 0

/-- The linear map `N = x + x⁴·z` acting on a plane of five lanes
(`z` = rotate-left by one bit), together with all its binary powers:
`Npow s` is `N^s` for `s` a power of two. -/
def Npow (s : Nat) (c : Nat → Nat) : Nat → Nat := fun i =>
  c ((i + 4 * s) % 5) ^^^ rotl (c ((i + s) % 5)) s

/-- Every lane of a plane is below `2 ^ 64`. -/
def BoundedPlane (c : Nat → Nat) : Prop := ∀ i, c i < 2 ^ 64

/-- The spec description of the padded final block, for
`consumed ≤ R_BYTES - 2`: the consumed bytes, a `0x01` marker, zeros, and
a final `0x80` byte. -/
def specPad (chunk : List Nat) : List Nat :=
  chunk ++ 1 :: (List.replicate (R_BYTES - 2 - chunk.length) 0 ++ [0x80])

/-- The list of full `R_BYTES` blocks at the front of an input. -/
def fullChunks (inp : List Nat) : List (List Nat) :=
  (List.range (inp.length / R_BYTES)).map
    fun i => (inp.drop (i * R_BYTES)).take R_BYTES

/-- Absorb one block: XOR it into the rate lanes, then permute. -/
def absorbBlock (st : State) (b : List Nat) : State :=
  keccak_f (xor_lanes st b)

/-! ## Bounds-checked variants of the indexed accesses (for the safety
claim): every `buf[i]` read and `buf[i] = v` / `buf[i] |= v` write of the
sponge driver's final-block construction and of the lane codec, with the
index check made explicit. -/

/-- A checked read `l[i]`. -/
def getChecked (l : List Nat) (i : Nat) : Option Nat :=
  if i < l.length then some (l.getD i 0) else none

/-- A checked write `l[i] = v`. -/
def setChecked (l : List Nat) (i : Nat) (v : Nat) : Option (List Nat) :=
  if i < l.length then some (l.set i v) else none

/-- `padBlock` with every buffer access checked. -/
def padBlockChecked (chunk : List Nat) : Option (List Nat) := do
  let l1 ← (List.range chunk.length).foldlM
    (fun l i => do setChecked l i (← getChecked chunk i))
    (List.replicate R_BYTES 0)
  let l2 ← setChecked l1 chunk.length 1
  setChecked l2 (R_BYTES - 1) ((← getChecked l2 (R_BYTES - 1)) ||| 0x80)

/-- One checked little-endian lane read from a byte buffer. -/
def laneFromBytesChecked (buf : List Nat) (off : Nat) : Option Lane :=
  (List.range 8).foldlM
    (fun acc k => do pure (acc + (← getChecked buf (off + k)) * 2 ^ (8 * k))) 0

/-- `xor_lanes` with every state and buffer access checked. -/
def xorLanesChecked (a : State) (buf : List Nat) : Option State :=
  (List.range (R_BYTES >>> 3)).foldlM
    (fun st i => do
      setChecked st i ((← getChecked st i) ^^^ (← laneFromBytesChecked buf (8 * i))))
    a

/-! ## XOR toolbox -/

theorem xor_left_comm (a b c : Nat) : a ^^^ (b ^^^ c) = b ^^^ (a ^^^ c) := by
  rw [← Nat.xor_assoc, Nat.xor_comm a b, Nat.xor_assoc]

theorem xor_self_cancel (a b : Nat) : a ^^^ (a ^^^ b) = b := by
  rw [← Nat.xor_assoc, Nat.xor_self, Nat.zero_xor]

theorem xor_cancel_right {x y a : Nat} (h : x ^^^ a = y ^^^ a) : x = y := by
  have := congrArg (· ^^^ a) h
  simpa [Nat.xor_assoc] using this

theorem xor_eq_iff {x y : Nat} : x = y ↔ x ^^^ y = 0 := by
  constructor
  · rintro rfl; exact Nat.xor_self x
  · exact fun h => Nat.xor_eq_zero.mp h

/-! ## Rotation machinery -/

theorem rotl_lt (x n : Nat) : rotl x n < 2 ^ 64 :=
  Nat.mod_lt _ (by norm_num)

theorem testBit_high {x t : Nat} (hx : x < 2 ^ 64) (ht : 64 ≤ t) :
    x.testBit t = false :=
  Nat.testBit_lt_two_pow (Nat.lt_of_lt_of_le hx (Nat.pow_le_pow_right (by norm_num) ht))

theorem rotl_testBit {x : Nat} (hx : x < 2 ^ 64) (n : Nat) {k : Nat} (hk : k < 64) :
    (rotl x n).testBit k = x.testBit ((k + (64 - n % 64)) % 64) := by
  have hs : n % 64 < 64 := Nat.mod_lt _ (by norm_num)
  unfold rotl
  rw [Nat.testBit_mod_two_pow, Nat.testBit_or, Nat.testBit_shiftLeft,
    Nat.testBit_shiftRight]
  rcases Nat.lt_or_ge k (n % 64) with hlt | hge
  · have h1 : (decide (n % 64 ≤ k)) = false := by simp; omega
    have h2 : (k + (64 - n % 64)) % 64 = 64 - n % 64 + k := by omega
    simp [h1, h2, hk]
  · have h1 : (decide (n % 64 ≤ k)) = true := by simp; omega
    have h2 : (k + (64 - n % 64)) % 64 = k - n % 64 := by omega
    have h3 : x.testBit (64 - n % 64 + k) = false := by
      apply testBit_high hx; omega
    simp [h1, h2, h3, hk]

theorem rotl_testBit_high (x n : Nat) {k : Nat} (hk : 64 ≤ k) :
    (rotl x n).testBit k = false := by
  unfold rotl
  rw [Nat.testBit_mod_two_pow]
  simp; omega

theorem rotl_xor {x y : Nat} (hx : x < 2 ^ 64) (hy : y < 2 ^ 64) (n : Nat) :
    rotl (x ^^^ y) n = rotl x n ^^^ rotl y n := by
  apply Nat.eq_of_testBit_eq
  intro t
  rcases Nat.lt_or_ge t 64 with ht | ht
  · rw [rotl_testBit (Nat.xor_lt_two_pow hx hy) n ht, Nat.testBit_xor,
      Nat.testBit_xor, rotl_testBit hx n ht, rotl_testBit hy n ht]
  · rw [rotl_testBit_high _ _ ht, Nat.testBit_xor,
      rotl_testBit_high _ _ ht, rotl_testBit_high _ _ ht]
    rfl

theorem rotl_rotl {x : Nat} (hx : x < 2 ^ 64) (a b : Nat) :
    rotl (rotl x a) b = rotl x (a + b) := by
  apply Nat.eq_of_testBit_eq
  intro t
  rcases Nat.lt_or_ge t 64 with ht | ht
  · have h1 : (t + (64 - b % 64)) % 64 < 64 := Nat.mod_lt _ (by norm_num)
    rw [rotl_testBit (rotl_lt x a) b ht, rotl_testBit hx a h1,
      rotl_testBit hx (a + b) ht]
    congr 1
    omega
  · rw [rotl_testBit_high _ _ ht, rotl_testBit_high _ _ ht]

theorem rotl_mod_zero {x : Nat} (hx : x < 2 ^ 64) {n : Nat} (hn : n % 64 = 0) :
    rotl x n = x := by
  apply Nat.eq_of_testBit_eq
  intro t
  rcases Nat.lt_or_ge t 64 with ht | ht
  · rw [rotl_testBit hx n ht]
    congr 1
    omega
  · rw [rotl_testBit_high _ _ ht, testBit_high hx ht]

theorem rotl_inj {x y : Nat} (hx : x < 2 ^ 64) (hy : y < 2 ^ 64) (n : Nat)
    (h : rotl x n = rotl y n) : x = y := by
  have hx2 := congrArg (fun z => rotl z (64 - n % 64)) h
  simp only [rotl_rotl hx, rotl_rotl hy] at hx2
  rwa [rotl_mod_zero hx (by omega), rotl_mod_zero hy (by omega)] at hx2

theorem comp64_lt (x : Nat) (hx : x < 2 ^ 64) : comp64 x < 2 ^ 64 :=
  Nat.xor_lt_two_pow hx (by norm_num)

theorem comp64_testBit {x : Nat} {t : Nat} (ht : t < 64) :
    (comp64 x).testBit t = !(x.testBit t) := by
  unfold comp64
  rw [Nat.testBit_xor, Nat.testBit_two_pow_sub_one]
  simp [ht]

theorem comp64_testBit_high {x : Nat} (hx : x < 2 ^ 64) {t : Nat} (ht : 64 ≤ t) :
    (comp64 x).testBit t = false := by
  unfold comp64
  rw [Nat.testBit_xor, Nat.testBit_two_pow_sub_one, testBit_high hx ht]
  simp; omega

/-! ## Powers of the theta parity map `N` -/

theorem Npow_bounded {c : Nat → Nat} (hc : BoundedPlane c) (s : Nat) :
    BoundedPlane (Npow s c) := fun i =>
  Nat.xor_lt_two_pow (hc _) (rotl_lt _ _)

theorem Npow_sq {c : Nat → Nat} (hc : BoundedPlane c) (s : Nat) :
    Npow s (Npow s c) = Npow (2 * s) c := by
  funext i
  show (Npow s c) ((i + 4 * s) % 5) ^^^ rotl ((Npow s c) ((i + s) % 5)) s = _
  show (c (((i + 4 * s) % 5 + 4 * s) % 5) ^^^ rotl (c (((i + 4 * s) % 5 + s) % 5)) s) ^^^
      rotl (c (((i + s) % 5 + 4 * s) % 5) ^^^ rotl (c (((i + s) % 5 + s) % 5)) s) s = _
  have e1 : ((i + 4 * s) % 5 + 4 * s) % 5 = (i + 4 * (2 * s)) % 5 := by omega
  have e2 : ((i + 4 * s) % 5 + s) % 5 = (i + 5 * s) % 5 := by omega
  have e3 : ((i + s) % 5 + 4 * s) % 5 = (i + 5 * s) % 5 := by omega
  have e4 : ((i + s) % 5 + s) % 5 = (i + 2 * s) % 5 := by omega
  rw [e1, e2, e3, e4, rotl_xor (hc _) (rotl_lt _ _), rotl_rotl (hc _)]
  show _ = c ((i + 4 * (2 * s)) % 5) ^^^ rotl (c ((i + 2 * s) % 5)) (2 * s)
  have e5 : s + s = 2 * s := by omega
  rw [e5]
  rw [Nat.xor_assoc]
  congr 1
  rw [← Nat.xor_assoc, Nat.xor_self, Nat.zero_xor]

theorem Npow_iterate {c : Nat → Nat} (hc : BoundedPlane c) (m : Nat) :
    (Npow 1)^[2 ^ m] c = Npow (2 ^ m) c := by
  induction m generalizing c with
  | zero => simp
  | succ m ih =>
    have step : (2 : Nat) ^ (m + 1) = 2 ^ m + 2 ^ m := by ring
    rw [step, Function.iterate_add_apply, ih hc, ih (Npow_bounded hc _), Npow_sq hc]
    congr 1
    ring

theorem Npow_64 {c : Nat → Nat} (hc : BoundedPlane c) :
    Npow 64 c = fun i => c ((i + 1) % 5) ^^^ c ((i + 4) % 5) := by
  funext i
  show c ((i + 4 * 64) % 5) ^^^ rotl (c ((i + 64) % 5)) 64 = _
  have e1 : (i + 4 * 64) % 5 = (i + 1) % 5 := by omega
  have e2 : (i + 64) % 5 = (i + 4) % 5 := by omega
  rw [e1, e2, rotl_mod_zero (hc _) (by norm_num)]

theorem Npow_128 {c : Nat → Nat} (hc : BoundedPlane c) :
    Npow 128 c = fun i => c ((i + 2) % 5) ^^^ c ((i + 3) % 5) := by
  funext i
  show c ((i + 4 * 128) % 5) ^^^ rotl (c ((i + 128) % 5)) 128 = _
  have e1 : (i + 4 * 128) % 5 = (i + 2) % 5 := by omega
  have e2 : (i + 128) % 5 = (i + 3) % 5 := by omega
  rw [e1, e2, rotl_mod_zero (hc _) (by norm_num)]

/-- Endgame of theta injectivity: a plane fixed by `N` and hence by `N⁶⁴`
and `N¹²⁸` is identically zero on indices `0..4`. -/
theorem plane_fixed_zero {g : Nat → Nat} (hc : BoundedPlane g)
    (hfix : Npow 1 g = g) : ∀ m, m < 5 → g m = 0 := by
  have h64 : ∀ i, g i = g ((i + 1) % 5) ^^^ g ((i + 4) % 5) := by
    intro i
    have it : (Npow 1)^[2 ^ 6] g = g := Function.iterate_fixed hfix _
    rw [Npow_iterate hc 6, show (2 : Nat) ^ 6 = 64 by norm_num, Npow_64 hc] at it
    exact (congrFun it.symm i)
  have h128 : ∀ i, g i = g ((i + 2) % 5) ^^^ g ((i + 3) % 5) := by
    intro i
    have it : (Npow 1)^[2 ^ 7] g = g := Function.iterate_fixed hfix _
    rw [Npow_iterate hc 7, show (2 : Nat) ^ 7 = 128 by norm_num, Npow_128 hc] at it
    exact (congrFun it.symm i)
  -- For each m: from A(m+1), B(m+3), A(m+2) (indices mod 5) derive g (m+1) = 0.
  have key : ∀ m, g ((m + 1) % 5) = 0 := by
    intro m
    have hA1 : g ((m + 1) % 5) = g ((m + 2) % 5) ^^^ g ((m + 5) % 5) := by
      have := h64 ((m + 1) % 5)
      have e1 : ((m + 1) % 5 + 1) % 5 = (m + 2) % 5 := by omega
      have e2 : ((m + 1) % 5 + 4) % 5 = (m + 5) % 5 := by omega
      rwa [e1, e2] at this
    have hB3 : g ((m + 3) % 5) = g ((m + 5) % 5) ^^^ g ((m + 6) % 5) := by
      have := h128 ((m + 3) % 5)
      have e1 : ((m + 3) % 5 + 2) % 5 = (m + 5) % 5 := by omega
      have e2 : ((m + 3) % 5 + 3) % 5 = (m + 6) % 5 := by omega
      rwa [e1, e2] at this
    have hA2 : g ((m + 2) % 5) = g ((m + 3) % 5) ^^^ g ((m + 6) % 5) := by
      have := h64 ((m + 2) % 5)
      have e1 : ((m + 2) % 5 + 1) % 5 = (m + 3) % 5 := by omega
      have e2 : ((m + 2) % 5 + 4) % 5 = (m + 6) % 5 := by omega
      rwa [e1, e2] at this
    rw [hA1, hA2, hB3]
    simp [Nat.xor_assoc, xor_self_cancel, Nat.xor_self, Nat.xor_zero]
  intro m hm
  have := key ((m + 4) % 5)
  have e : ((m + 4) % 5 + 1) % 5 = m := by omega
  rwa [e] at this

/-! ## Generic bounded-list helpers -/

theorem getD_lt {s : List Nat} (hs : ∀ x ∈ s, x < 2 ^ 64) (k : Nat) :
    s.getD k 0 < 2 ^ 64 := by
  rcases Nat.lt_or_ge k s.length with h | h
  · rw [List.getD_eq_getElem s 0 h]
    exact hs _ (List.getElem_mem h)
  · rw [List.getD_eq_default s 0 h]
    norm_num

theorem getD_map_range {f : Nat → Nat} {n k : Nat} (h : k < n) :
    ((List.range n).map f).getD k 0 = f k := by
  rw [List.getD_eq_getElem _ _ (by simp [h]), List.getElem_map, List.getElem_range]

theorem xor_rearrange {a b x y : Nat} (h : a ^^^ x = b ^^^ y) :
    a ^^^ b = x ^^^ y := by
  rw [xor_eq_iff] at h ⊢
  rw [show a ^^^ b ^^^ (x ^^^ y) = a ^^^ x ^^^ (b ^^^ y) by
    simp [Nat.xor_assoc, Nat.xor_comm, xor_left_comm]]
  exact h

/-! ## Theta structure -/

theorem theta_length (s : State) : (theta s).length = 25 := by
  simp [theta]

theorem theta_getD (s : State) (k : Nat) (hk : k < 25) :
    (theta s).getD k 0 = s.getD k 0 ^^^ Npow 1 (colParity s) k := by
  interval_cases k <;> rfl

theorem colParity_bounded {s : State} (hs : ∀ x ∈ s, x < 2 ^ 64) :
    BoundedPlane (colParity s) := by
  intro i
  unfold colParity
  exact Nat.xor_lt_two_pow (Nat.xor_lt_two_pow (Nat.xor_lt_two_pow
    (Nat.xor_lt_two_pow (getD_lt hs _) (getD_lt hs _)) (getD_lt hs _))
    (getD_lt hs _)) (getD_lt hs _)

theorem colParity_periodic (s : State) (j : Nat) :
    colParity s j = colParity s (j % 5) := by
  have e : j % 5 % 5 = j % 5 := by omega
  simp only [colParity, e]

theorem colParity_theta (s : State) (m : Nat) (hm : m < 5) :
    colParity (theta s) m = colParity s m ^^^ Npow 1 (colParity s) m := by
  have e : m % 5 = m := by omega
  show (theta s).getD (m % 5) 0 ^^^ (theta s).getD (m % 5 + 5) 0 ^^^
      (theta s).getD (m % 5 + 10) 0 ^^^ (theta s).getD (m % 5 + 15) 0 ^^^
      (theta s).getD (m % 5 + 20) 0 = _
  rw [e, theta_getD s m (by omega), theta_getD s (m + 5) (by omega),
    theta_getD s (m + 10) (by omega), theta_getD s (m + 15) (by omega),
    theta_getD s (m + 20) (by omega)]
  have e1 : (m + 5 + 4 * 1) % 5 = (m + 4 * 1) % 5 := by omega
  have e2 : (m + 10 + 4 * 1) % 5 = (m + 4 * 1) % 5 := by omega
  have e3 : (m + 15 + 4 * 1) % 5 = (m + 4 * 1) % 5 := by omega
  have e4 : (m + 20 + 4 * 1) % 5 = (m + 4 * 1) % 5 := by omega
  have f1 : (m + 5 + 1) % 5 = (m + 1) % 5 := by omega
  have f2 : (m + 10 + 1) % 5 = (m + 1) % 5 := by omega
  have f3 : (m + 15 + 1) % 5 = (m + 1) % 5 := by omega
  have f4 : (m + 20 + 1) % 5 = (m + 1) % 5 := by omega
  simp only [Npow, e1, e2, e3, e4, f1, f2, f3, f4]
  show _ = colParity s m ^^^ (colParity s ((m + 4 * 1) % 5) ^^^
    rotl (colParity s ((m + 1) % 5)) 1)
  generalize colParity s ((m + 4 * 1) % 5) ^^^ rotl (colParity s ((m + 1) % 5)) 1 = X
  show s.getD m 0 ^^^ X ^^^ (s.getD (m + 5) 0 ^^^ X) ^^^ (s.getD (m + 10) 0 ^^^ X) ^^^
      (s.getD (m + 15) 0 ^^^ X) ^^^ (s.getD (m + 20) 0 ^^^ X) = _
  show _ = (s.getD (m % 5) 0 ^^^ s.getD (m % 5 + 5) 0 ^^^ s.getD (m % 5 + 10) 0 ^^^
    s.getD (m % 5 + 15) 0 ^^^ s.getD (m % 5 + 20) 0) ^^^ X
  rw [e]
  simp [Nat.xor_assoc, Nat.xor_comm, xor_left_comm, Nat.xor_self, xor_self_cancel,
    Nat.xor_zero, Nat.zero_xor]

theorem theta_inj {s1 s2 : State} (h1 : Valid s1) (h2 : Valid s2)
    (h : theta s1 = theta s2) : s1 = s2 := by
  obtain ⟨hl1, hb1⟩ := h1
  obtain ⟨hl2, hb2⟩ := h2
  have hc1 : BoundedPlane (colParity s1) := colParity_bounded hb1
  have hc2 : BoundedPlane (colParity s2) := colParity_bounded hb2
  -- the column-parity difference plane is a fixed point of N
  set g : Nat → Nat := fun i => colParity s1 i ^^^ colParity s2 i with hg
  have hgb : BoundedPlane g := fun i => Nat.xor_lt_two_pow (hc1 i) (hc2 i)
  have hcol : ∀ m, m < 5 →
      colParity s1 m ^^^ Npow 1 (colParity s1) m =
      colParity s2 m ^^^ Npow 1 (colParity s2) m := by
    intro m hm
    rw [← colParity_theta s1 m hm, ← colParity_theta s2 m hm, h]
  have hgfix5 : ∀ m, m < 5 → g m = Npow 1 g m := by
    intro m hm
    have hr := xor_rearrange (hcol m hm)
    show colParity s1 m ^^^ colParity s2 m = _
    rw [hr]
    show Npow 1 (colParity s1) m ^^^ Npow 1 (colParity s2) m =
      g ((m + 4 * 1) % 5) ^^^ rotl (g ((m + 1) % 5)) 1
    show colParity s1 ((m + 4 * 1) % 5) ^^^ rotl (colParity s1 ((m + 1) % 5)) 1 ^^^
      (colParity s2 ((m + 4 * 1) % 5) ^^^ rotl (colParity s2 ((m + 1) % 5)) 1) = _
    rw [show g ((m + 4 * 1) % 5) =
      colParity s1 ((m + 4 * 1) % 5) ^^^ colParity s2 ((m + 4 * 1) % 5) from rfl]
    rw [show g ((m + 1) % 5) =
      colParity s1 ((m + 1) % 5) ^^^ colParity s2 ((m + 1) % 5) from rfl]
    rw [rotl_xor (hc1 _) (hc2 _)]
    simp [Nat.xor_assoc, Nat.xor_comm, xor_left_comm]
  have hfix : Npow 1 g = g := by
    funext i
    have eg : ∀ j, g j = g (j % 5) := by
      intro j
      show colParity s1 j ^^^ colParity s2 j = colParity s1 (j % 5) ^^^ colParity s2 (j % 5)
      rw [colParity_periodic s1 j, colParity_periodic s2 j]
    have e1 : (i + 4 * 1) % 5 = (i % 5 + 4 * 1) % 5 := by omega
    have e2 : (i + 1) % 5 = (i % 5 + 1) % 5 := by omega
    show g ((i + 4 * 1) % 5) ^^^ rotl (g ((i + 1) % 5)) 1 = g i
    rw [e1, e2, eg i]
    exact (hgfix5 (i % 5) (by omega)).symm
  have hg0 : ∀ m, m < 5 → colParity s1 m = colParity s2 m := by
    intro m hm
    have := plane_fixed_zero hgb hfix m hm
    exact Nat.xor_eq_zero.mp this
  -- conclude lane by lane
  apply List.ext_getElem (by omega)
  intro k hk1 hk2
  have hk : k < 25 := by omega
  have hlane : (theta s1).getD k 0 = (theta s2).getD k 0 := by rw [h]
  rw [theta_getD s1 k hk, theta_getD s2 k hk] at hlane
  have hN : Npow 1 (colParity s1) k = Npow 1 (colParity s2) k := by
    show colParity s1 ((k + 4 * 1) % 5) ^^^ rotl (colParity s1 ((k + 1) % 5)) 1 =
      colParity s2 ((k + 4 * 1) % 5) ^^^ rotl (colParity s2 ((k + 1) % 5)) 1
    rw [hg0 ((k + 4 * 1) % 5) (by omega), hg0 ((k + 1) % 5) (by omega)]
  rw [hN] at hlane
  have := xor_cancel_right hlane
  rwa [List.getD_eq_getElem s1 0 (by omega), List.getD_eq_getElem s2 0 (by omega)] at this

/-! ## Destructuring a 25-lane state -/

theorem exists25 (s : List Nat) (h : s.length = 25) :
    ∃ a0 a1 a2 a3 a4 a5 a6 a7 a8 a9 a10 a11 a12 a13 a14 a15 a16 a17 a18 a19
      a20 a21 a22 a23 a24 : Nat,
      s = [a0, a1, a2, a3, a4, a5, a6, a7, a8, a9, a10, a11, a12, a13, a14,
        a15, a16, a17, a18, a19, a20, a21, a22, a23, a24] := by
  rcases s with _ | ⟨a0, s⟩; · simp at h
  rcases s with _ | ⟨a1, s⟩; · simp at h
  rcases s with _ | ⟨a2, s⟩; · simp at h
  rcases s with _ | ⟨a3, s⟩; · simp at h
  rcases s with _ | ⟨a4, s⟩; · simp at h
  rcases s with _ | ⟨a5, s⟩; · simp at h
  rcases s with _ | ⟨a6, s⟩; · simp at h
  rcases s with _ | ⟨a7, s⟩; · simp at h
  rcases s with _ | ⟨a8, s⟩; · simp at h
  rcases s with _ | ⟨a9, s⟩; · simp at h
  rcases s with _ | ⟨a10, s⟩; · simp at h
  rcases s with _ | ⟨a11, s⟩; · simp at h
  rcases s with _ | ⟨a12, s⟩; · simp at h
  rcases s with _ | ⟨a13, s⟩; · simp at h
  rcases s with _ | ⟨a14, s⟩; · simp at h
  rcases s with _ | ⟨a15, s⟩; · simp at h
  rcases s with _ | ⟨a16, s⟩; · simp at h
  rcases s with _ | ⟨a17, s⟩; · simp at h
  rcases s with _ | ⟨a18, s⟩; · simp at h
  rcases s with _ | ⟨a19, s⟩; · simp at h
  rcases s with _ | ⟨a20, s⟩; · simp at h
  rcases s with _ | ⟨a21, s⟩; · simp at h
  rcases s with _ | ⟨a22, s⟩; · simp at h
  rcases s with _ | ⟨a23, s⟩; · simp at h
  rcases s with _ | ⟨a24, s⟩; · simp at h
  rcases s with _ | ⟨a25, s⟩
  · exact ⟨a0, a1, a2, a3, a4, a5, a6, a7, a8, a9, a10, a11, a12, a13, a14,
      a15, a16, a17, a18, a19, a20, a21, a22, a23, a24, rfl⟩
  · simp at h

/-! ## Rho+Pi structure: the wanderer walk written out -/

set_option maxHeartbeats 1000000 in
theorem rhoPi_explicit (a0 a1 a2 a3 a4 a5 a6 a7 a8 a9 a10 a11 a12 a13 a14 a15
    a16 a17 a18 a19 a20 a21 a22 a23 a24 : Nat) :
    rhoPi [a0, a1, a2, a3, a4, a5, a6, a7, a8, a9, a10, a11, a12, a13, a14, a15, a16, a17, a18, a19, a20, a21, a22, a23, a24] =
    [a0, rotl a6 44, rotl a12 43, rotl a18 21, rotl a24 14, rotl a3 28, rotl a9 20, rotl a10 3, rotl a16 45, rotl a22 61, rotl a1 1, rotl a7 6, rotl a13 25, rotl a19 8, rotl a20 18, rotl a4 27, rotl a5 36, rotl a11 10, rotl a17 15, rotl a23 56, rotl a2 62, rotl a8 55, rotl a14 39, rotl a15 41, rotl a21 2] := by
  show rhoPiAux [0, 1, 2, 3, 4, 5, 6, 7, 8, 9, 10, 11, 12, 13, 14, 15, 16, 17, 18, 19, 20, 21, 22, 23] [a0, a1, a2, a3, a4, a5, a6, a7, a8, a9, a10, a11, a12, a13, a14, a15, a16, a17, a18, a19, a20, a21, a22, a23, a24] a1 = _
  have h0 : rhoPiAux [0, 1, 2, 3, 4, 5, 6, 7, 8, 9, 10, 11, 12, 13, 14, 15, 16, 17, 18, 19, 20, 21, 22, 23] [a0, a1, a2, a3, a4, a5, a6, a7, a8, a9, a10, a11, a12, a13, a14, a15, a16, a17, a18, a19, a20, a21, a22, a23, a24] a1 =
      rhoPiAux [1, 2, 3, 4, 5, 6, 7, 8, 9, 10, 11, 12, 13, 14, 15, 16, 17, 18, 19, 20, 21, 22, 23] [a0, a1, a2, a3, a4, a5, a6, a7, a8, a9, rotl a1 1, a11, a12, a13, a14, a15, a16, a17, a18, a19, a20, a21, a22, a23, a24] a10 := rfl
  have h1 : rhoPiAux [1, 2, 3, 4, 5, 6, 7, 8, 9, 10, 11, 12, 13, 14, 15, 16, 17, 18, 19, 20, 21, 22, 23] [a0, a1, a2, a3, a4, a5, a6, a7, a8, a9, rotl a1 1, a11, a12, a13, a14, a15, a16, a17, a18, a19, a20, a21, a22, a23, a24] a10 =
      rhoPiAux [2, 3, 4, 5, 6, 7, 8, 9, 10, 11, 12, 13, 14, 15, 16, 17, 18, 19, 20, 21, 22, 23] [a0, a1, a2, a3, a4, a5, a6, rotl a10 3, a8, a9, rotl a1 1, a11, a12, a13, a14, a15, a16, a17, a18, a19, a20, a21, a22, a23, a24] a7 := rfl
  have h2 : rhoPiAux [2, 3, 4, 5, 6, 7, 8, 9, 10, 11, 12, 13, 14, 15, 16, 17, 18, 19, 20, 21, 22, 23] [a0, a1, a2, a3, a4, a5, a6, rotl a10 3, a8, a9, rotl a1 1, a11, a12, a13, a14, a15, a16, a17, a18, a19, a20, a21, a22, a23, a24] a7 =
      rhoPiAux [3, 4, 5, 6, 7, 8, 9, 10, 11, 12, 13, 14, 15, 16, 17, 18, 19, 20, 21, 22, 23] [a0, a1, a2, a3, a4, a5, a6, rotl a10 3, a8, a9, rotl a1 1, rotl a7 6, a12, a13, a14, a15, a16, a17, a18, a19, a20, a21, a22, a23, a24] a11 := rfl
  have h3 : rhoPiAux [3, 4, 5, 6, 7, 8, 9, 10, 11, 12, 13, 14, 15, 16, 17, 18, 19, 20, 21, 22, 23] [a0, a1, a2, a3, a4, a5, a6, rotl a10 3, a8, a9, rotl a1 1, rotl a7 6, a12, a13, a14, a15, a16, a17, a18, a19, a20, a21, a22, a23, a24] a11 =
      rhoPiAux [4, 5, 6, 7, 8, 9, 10, 11, 12, 13, 14, 15, 16, 17, 18, 19, 20, 21, 22, 23] [a0, a1, a2, a3, a4, a5, a6, rotl a10 3, a8, a9, rotl a1 1, rotl a7 6, a12, a13, a14, a15, a16, rotl a11 10, a18, a19, a20, a21, a22, a23, a24] a17 := rfl
  have h4 : rhoPiAux [4, 5, 6, 7, 8, 9, 10, 11, 12, 13, 14, 15, 16, 17, 18, 19, 20, 21, 22, 23] [a0, a1, a2, a3, a4, a5, a6, rotl a10 3, a8, a9, rotl a1 1, rotl a7 6, a12, a13, a14, a15, a16, rotl a11 10, a18, a19, a20, a21, a22, a23, a24] a17 =
      rhoPiAux [5, 6, 7, 8, 9, 10, 11, 12, 13, 14, 15, 16, 17, 18, 19, 20, 21, 22, 23] [a0, a1, a2, a3, a4, a5, a6, rotl a10 3, a8, a9, rotl a1 1, rotl a7 6, a12, a13, a14, a15, a16, rotl a11 10, rotl a17 15, a19, a20, a21, a22, a23, a24] a18 := rfl
  have h5 : rhoPiAux [5, 6, 7, 8, 9, 10, 11, 12, 13, 14, 15, 16, 17, 18, 19, 20, 21, 22, 23] [a0, a1, a2, a3, a4, a5, a6, rotl a10 3, a8, a9, rotl a1 1, rotl a7 6, a12, a13, a14, a15, a16, rotl a11 10, rotl a17 15, a19, a20, a21, a22, a23, a24] a18 =
      rhoPiAux [6, 7, 8, 9, 10, 11, 12, 13, 14, 15, 16, 17, 18, 19, 20, 21, 22, 23] [a0, a1, a2, rotl a18 21, a4, a5, a6, rotl a10 3, a8, a9, rotl a1 1, rotl a7 6, a12, a13, a14, a15, a16, rotl a11 10, rotl a17 15, a19, a20, a21, a22, a23, a24] a3 := rfl
  have h6 : rhoPiAux [6, 7, 8, 9, 10, 11, 12, 13, 14, 15, 16, 17, 18, 19, 20, 21, 22, 23] [a0, a1, a2, rotl a18 21, a4, a5, a6, rotl a10 3, a8, a9, rotl a1 1, rotl a7 6, a12, a13, a14, a15, a16, rotl a11 10, rotl a17 15, a19, a20, a21, a22, a23, a24] a3 =
      rhoPiAux [7, 8, 9, 10, 11, 12, 13, 14, 15, 16, 17, 18, 19, 20, 21, 22, 23] [a0, a1, a2, rotl a18 21, a4, rotl a3 28, a6, rotl a10 3, a8, a9, rotl a1 1, rotl a7 6, a12, a13, a14, a15, a16, rotl a11 10, rotl a17 15, a19, a20, a21, a22, a23, a24] a5 := rfl
  have h7 : rhoPiAux [7, 8, 9, 10, 11, 12, 13, 14, 15, 16, 17, 18, 19, 20, 21, 22, 23] [a0, a1, a2, rotl a18 21, a4, rotl a3 28, a6, rotl a10 3, a8, a9, rotl a1 1, rotl a7 6, a12, a13, a14, a15, a16, rotl a11 10, rotl a17 15, a19, a20, a21, a22, a23, a24] a5 =
      rhoPiAux [8, 9, 10, 11, 12, 13, 14, 15, 16, 17, 18, 19, 20, 21, 22, 23] [a0, a1, a2, rotl a18 21, a4, rotl a3 28, a6, rotl a10 3, a8, a9, rotl a1 1, rotl a7 6, a12, a13, a14, a15, rotl a5 36, rotl a11 10, rotl a17 15, a19, a20, a21, a22, a23, a24] a16 := rfl
  have h8 : rhoPiAux [8, 9, 10, 11, 12, 13, 14, 15, 16, 17, 18, 19, 20, 21, 22, 23] [a0, a1, a2, rotl a18 21, a4, rotl a3 28, a6, rotl a10 3, a8, a9, rotl a1 1, rotl a7 6, a12, a13, a14, a15, rotl a5 36, rotl a11 10, rotl a17 15, a19, a20, a21, a22, a23, a24] a16 =
      rhoPiAux [9, 10, 11, 12, 13, 14, 15, 16, 17, 18, 19, 20, 21, 22, 23] [a0, a1, a2, rotl a18 21, a4, rotl a3 28, a6, rotl a10 3, rotl a16 45, a9, rotl a1 1, rotl a7 6, a12, a13, a14, a15, rotl a5 36, rotl a11 10, rotl a17 15, a19, a20, a21, a22, a23, a24] a8 := rfl
  have h9 : rhoPiAux [9, 10, 11, 12, 13, 14, 15, 16, 17, 18, 19, 20, 21, 22, 23] [a0, a1, a2, rotl a18 21, a4, rotl a3 28, a6, rotl a10 3, rotl a16 45, a9, rotl a1 1, rotl a7 6, a12, a13, a14, a15, rotl a5 36, rotl a11 10, rotl a17 15, a19, a20, a21, a22, a23, a24] a8 =
      rhoPiAux [10, 11, 12, 13, 14, 15, 16, 17, 18, 19, 20, 21, 22, 23] [a0, a1, a2, rotl a18 21, a4, rotl a3 28, a6, rotl a10 3, rotl a16 45, a9, rotl a1 1, rotl a7 6, a12, a13, a14, a15, rotl a5 36, rotl a11 10, rotl a17 15, a19, a20, rotl a8 55, a22, a23, a24] a21 := rfl
  have h10 : rhoPiAux [10, 11, 12, 13, 14, 15, 16, 17, 18, 19, 20, 21, 22, 23] [a0, a1, a2, rotl a18 21, a4, rotl a3 28, a6, rotl a10 3, rotl a16 45, a9, rotl a1 1, rotl a7 6, a12, a13, a14, a15, rotl a5 36, rotl a11 10, rotl a17 15, a19, a20, rotl a8 55, a22, a23, a24] a21 =
      rhoPiAux [11, 12, 13, 14, 15, 16, 17, 18, 19, 20, 21, 22, 23] [a0, a1, a2, rotl a18 21, a4, rotl a3 28, a6, rotl a10 3, rotl a16 45, a9, rotl a1 1, rotl a7 6, a12, a13, a14, a15, rotl a5 36, rotl a11 10, rotl a17 15, a19, a20, rotl a8 55, a22, a23, rotl a21 2] a24 := rfl
  have h11 : rhoPiAux [11, 12, 13, 14, 15, 16, 17, 18, 19, 20, 21, 22, 23] [a0, a1, a2, rotl a18 21, a4, rotl a3 28, a6, rotl a10 3, rotl a16 45, a9, rotl a1 1, rotl a7 6, a12, a13, a14, a15, rotl a5 36, rotl a11 10, rotl a17 15, a19, a20, rotl a8 55, a22, a23, rotl a21 2] a24 =
      rhoPiAux [12, 13, 14, 15, 16, 17, 18, 19, 20, 21, 22, 23] [a0, a1, a2, rotl a18 21, rotl a24 14, rotl a3 28, a6, rotl a10 3, rotl a16 45, a9, rotl a1 1, rotl a7 6, a12, a13, a14, a15, rotl a5 36, rotl a11 10, rotl a17 15, a19, a20, rotl a8 55, a22, a23, rotl a21 2] a4 := rfl
  have h12 : rhoPiAux [12, 13, 14, 15, 16, 17, 18, 19, 20, 21, 22, 23] [a0, a1, a2, rotl a18 21, rotl a24 14, rotl a3 28, a6, rotl a10 3, rotl a16 45, a9, rotl a1 1, rotl a7 6, a12, a13, a14, a15, rotl a5 36, rotl a11 10, rotl a17 15, a19, a20, rotl a8 55, a22, a23, rotl a21 2] a4 =
      rhoPiAux [13, 14, 15, 16, 17, 18, 19, 20, 21, 22, 23] [a0, a1, a2, rotl a18 21, rotl a24 14, rotl a3 28, a6, rotl a10 3, rotl a16 45, a9, rotl a1 1, rotl a7 6, a12, a13, a14, rotl a4 27, rotl a5 36, rotl a11 10, rotl a17 15, a19, a20, rotl a8 55, a22, a23, rotl a21 2] a15 := rfl
  have h13 : rhoPiAux [13, 14, 15, 16, 17, 18, 19, 20, 21, 22, 23] [a0, a1, a2, rotl a18 21, rotl a24 14, rotl a3 28, a6, rotl a10 3, rotl a16 45, a9, rotl a1 1, rotl a7 6, a12, a13, a14, rotl a4 27, rotl a5 36, rotl a11 10, rotl a17 15, a19, a20, rotl a8 55, a22, a23, rotl a21 2] a15 =
      rhoPiAux [14, 15, 16, 17, 18, 19, 20, 21, 22, 23] [a0, a1, a2, rotl a18 21, rotl a24 14, rotl a3 28, a6, rotl a10 3, rotl a16 45, a9, rotl a1 1, rotl a7 6, a12, a13, a14, rotl a4 27, rotl a5 36, rotl a11 10, rotl a17 15, a19, a20, rotl a8 55, a22, rotl a15 41, rotl a21 2] a23 := rfl
  have h14 : rhoPiAux [14, 15, 16, 17, 18, 19, 20, 21, 22, 23] [a0, a1, a2, rotl a18 21, rotl a24 14, rotl a3 28, a6, rotl a10 3, rotl a16 45, a9, rotl a1 1, rotl a7 6, a12, a13, a14, rotl a4 27, rotl a5 36, rotl a11 10, rotl a17 15, a19, a20, rotl a8 55, a22, rotl a15 41, rotl a21 2] a23 =
      rhoPiAux [15, 16, 17, 18, 19, 20, 21, 22, 23] [a0, a1, a2, rotl a18 21, rotl a24 14, rotl a3 28, a6, rotl a10 3, rotl a16 45, a9, rotl a1 1, rotl a7 6, a12, a13, a14, rotl a4 27, rotl a5 36, rotl a11 10, rotl a17 15, rotl a23 56, a20, rotl a8 55, a22, rotl a15 41, rotl a21 2] a19 := rfl
  have h15 : rhoPiAux [15, 16, 17, 18, 19, 20, 21, 22, 23] [a0, a1, a2, rotl a18 21, rotl a24 14, rotl a3 28, a6, rotl a10 3, rotl a16 45, a9, rotl a1 1, rotl a7 6, a12, a13, a14, rotl a4 27, rotl a5 36, rotl a11 10, rotl a17 15, rotl a23 56, a20, rotl a8 55, a22, rotl a15 41, rotl a21 2] a19 =
      rhoPiAux [16, 17, 18, 19, 20, 21, 22, 23] [a0, a1, a2, rotl a18 21, rotl a24 14, rotl a3 28, a6, rotl a10 3, rotl a16 45, a9, rotl a1 1, rotl a7 6, a12, rotl a19 8, a14, rotl a4 27, rotl a5 36, rotl a11 10, rotl a17 15, rotl a23 56, a20, rotl a8 55, a22, rotl a15 41, rotl a21 2] a13 := rfl
  have h16 : rhoPiAux [16, 17, 18, 19, 20, 21, 22, 23] [a0, a1, a2, rotl a18 21, rotl a24 14, rotl a3 28, a6, rotl a10 3, rotl a16 45, a9, rotl a1 1, rotl a7 6, a12, rotl a19 8, a14, rotl a4 27, rotl a5 36, rotl a11 10, rotl a17 15, rotl a23 56, a20, rotl a8 55, a22, rotl a15 41, rotl a21 2] a13 =
      rhoPiAux [17, 18, 19, 20, 21, 22, 23] [a0, a1, a2, rotl a18 21, rotl a24 14, rotl a3 28, a6, rotl a10 3, rotl a16 45, a9, rotl a1 1, rotl a7 6, rotl a13 25, rotl a19 8, a14, rotl a4 27, rotl a5 36, rotl a11 10, rotl a17 15, rotl a23 56, a20, rotl a8 55, a22, rotl a15 41, rotl a21 2] a12 := rfl
  have h17 : rhoPiAux [17, 18, 19, 20, 21, 22, 23] [a0, a1, a2, rotl a18 21, rotl a24 14, rotl a3 28, a6, rotl a10 3, rotl a16 45, a9, rotl a1 1, rotl a7 6, rotl a13 25, rotl a19 8, a14, rotl a4 27, rotl a5 36, rotl a11 10, rotl a17 15, rotl a23 56, a20, rotl a8 55, a22, rotl a15 41, rotl a21 2] a12 =
      rhoPiAux [18, 19, 20, 21, 22, 23] [a0, a1, rotl a12 43, rotl a18 21, rotl a24 14, rotl a3 28, a6, rotl a10 3, rotl a16 45, a9, rotl a1 1, rotl a7 6, rotl a13 25, rotl a19 8, a14, rotl a4 27, rotl a5 36, rotl a11 10, rotl a17 15, rotl a23 56, a20, rotl a8 55, a22, rotl a15 41, rotl a21 2] a2 := rfl
  have h18 : rhoPiAux [18, 19, 20, 21, 22, 23] [a0, a1, rotl a12 43, rotl a18 21, rotl a24 14, rotl a3 28, a6, rotl a10 3, rotl a16 45, a9, rotl a1 1, rotl a7 6, rotl a13 25, rotl a19 8, a14, rotl a4 27, rotl a5 36, rotl a11 10, rotl a17 15, rotl a23 56, a20, rotl a8 55, a22, rotl a15 41, rotl a21 2] a2 =
      rhoPiAux [19, 20, 21, 22, 23] [a0, a1, rotl a12 43, rotl a18 21, rotl a24 14, rotl a3 28, a6, rotl a10 3, rotl a16 45, a9, rotl a1 1, rotl a7 6, rotl a13 25, rotl a19 8, a14, rotl a4 27, rotl a5 36, rotl a11 10, rotl a17 15, rotl a23 56, rotl a2 62, rotl a8 55, a22, rotl a15 41, rotl a21 2] a20 := rfl
  have h19 : rhoPiAux [19, 20, 21, 22, 23] [a0, a1, rotl a12 43, rotl a18 21, rotl a24 14, rotl a3 28, a6, rotl a10 3, rotl a16 45, a9, rotl a1 1, rotl a7 6, rotl a13 25, rotl a19 8, a14, rotl a4 27, rotl a5 36, rotl a11 10, rotl a17 15, rotl a23 56, rotl a2 62, rotl a8 55, a22, rotl a15 41, rotl a21 2] a20 =
      rhoPiAux [20, 21, 22, 23] [a0, a1, rotl a12 43, rotl a18 21, rotl a24 14, rotl a3 28, a6, rotl a10 3, rotl a16 45, a9, rotl a1 1, rotl a7 6, rotl a13 25, rotl a19 8, rotl a20 18, rotl a4 27, rotl a5 36, rotl a11 10, rotl a17 15, rotl a23 56, rotl a2 62, rotl a8 55, a22, rotl a15 41, rotl a21 2] a14 := rfl
  have h20 : rhoPiAux [20, 21, 22, 23] [a0, a1, rotl a12 43, rotl a18 21, rotl a24 14, rotl a3 28, a6, rotl a10 3, rotl a16 45, a9, rotl a1 1, rotl a7 6, rotl a13 25, rotl a19 8, rotl a20 18, rotl a4 27, rotl a5 36, rotl a11 10, rotl a17 15, rotl a23 56, rotl a2 62, rotl a8 55, a22, rotl a15 41, rotl a21 2] a14 =
      rhoPiAux [21, 22, 23] [a0, a1, rotl a12 43, rotl a18 21, rotl a24 14, rotl a3 28, a6, rotl a10 3, rotl a16 45, a9, rotl a1 1, rotl a7 6, rotl a13 25, rotl a19 8, rotl a20 18, rotl a4 27, rotl a5 36, rotl a11 10, rotl a17 15, rotl a23 56, rotl a2 62, rotl a8 55, rotl a14 39, rotl a15 41, rotl a21 2] a22 := rfl
  have h21 : rhoPiAux [21, 22, 23] [a0, a1, rotl a12 43, rotl a18 21, rotl a24 14, rotl a3 28, a6, rotl a10 3, rotl a16 45, a9, rotl a1 1, rotl a7 6, rotl a13 25, rotl a19 8, rotl a20 18, rotl a4 27, rotl a5 36, rotl a11 10, rotl a17 15, rotl a23 56, rotl a2 62, rotl a8 55, rotl a14 39, rotl a15 41, rotl a21 2] a22 =
      rhoPiAux [22, 23] [a0, a1, rotl a12 43, rotl a18 21, rotl a24 14, rotl a3 28, a6, rotl a10 3, rotl a16 45, rotl a22 61, rotl a1 1, rotl a7 6, rotl a13 25, rotl a19 8, rotl a20 18, rotl a4 27, rotl a5 36, rotl a11 10, rotl a17 15, rotl a23 56, rotl a2 62, rotl a8 55, rotl a14 39, rotl a15 41, rotl a21 2] a9 := rfl
  have h22 : rhoPiAux [22, 23] [a0, a1, rotl a12 43, rotl a18 21, rotl a24 14, rotl a3 28, a6, rotl a10 3, rotl a16 45, rotl a22 61, rotl a1 1, rotl a7 6, rotl a13 25, rotl a19 8, rotl a20 18, rotl a4 27, rotl a5 36, rotl a11 10, rotl a17 15, rotl a23 56, rotl a2 62, rotl a8 55, rotl a14 39, rotl a15 41, rotl a21 2] a9 =
      rhoPiAux [23] [a0, a1, rotl a12 43, rotl a18 21, rotl a24 14, rotl a3 28, rotl a9 20, rotl a10 3, rotl a16 45, rotl a22 61, rotl a1 1, rotl a7 6, rotl a13 25, rotl a19 8, rotl a20 18, rotl a4 27, rotl a5 36, rotl a11 10, rotl a17 15, rotl a23 56, rotl a2 62, rotl a8 55, rotl a14 39, rotl a15 41, rotl a21 2] a6 := rfl
  have h23 : rhoPiAux [23] [a0, a1, rotl a12 43, rotl a18 21, rotl a24 14, rotl a3 28, rotl a9 20, rotl a10 3, rotl a16 45, rotl a22 61, rotl a1 1, rotl a7 6, rotl a13 25, rotl a19 8, rotl a20 18, rotl a4 27, rotl a5 36, rotl a11 10, rotl a17 15, rotl a23 56, rotl a2 62, rotl a8 55, rotl a14 39, rotl a15 41, rotl a21 2] a6 =
      rhoPiAux [] [a0, rotl a6 44, rotl a12 43, rotl a18 21, rotl a24 14, rotl a3 28, rotl a9 20, rotl a10 3, rotl a16 45, rotl a22 61, rotl a1 1, rotl a7 6, rotl a13 25, rotl a19 8, rotl a20 18, rotl a4 27, rotl a5 36, rotl a11 10, rotl a17 15, rotl a23 56, rotl a2 62, rotl a8 55, rotl a14 39, rotl a15 41, rotl a21 2] a1 := rfl
  have h24 : rhoPiAux [] [a0, rotl a6 44, rotl a12 43, rotl a18 21, rotl a24 14, rotl a3 28, rotl a9 20, rotl a10 3, rotl a16 45, rotl a22 61, rotl a1 1, rotl a7 6, rotl a13 25, rotl a19 8, rotl a20 18, rotl a4 27, rotl a5 36, rotl a11 10, rotl a17 15, rotl a23 56, rotl a2 62, rotl a8 55, rotl a14 39, rotl a15 41, rotl a21 2] a1 = [a0, rotl a6 44, rotl a12 43, rotl a18 21, rotl a24 14, rotl a3 28, rotl a9 20, rotl a10 3, rotl a16 45, rotl a22 61, rotl a1 1, rotl a7 6, rotl a13 25, rotl a19 8, rotl a20 18, rotl a4 27, rotl a5 36, rotl a11 10, rotl a17 15, rotl a23 56, rotl a2 62, rotl a8 55, rotl a14 39, rotl a15 41, rotl a21 2] := rfl
  exact h0.trans (h1.trans (h2.trans (h3.trans (h4.trans (h5.trans (h6.trans (h7.trans (h8.trans (h9.trans (h10.trans (h11.trans (h12.trans (h13.trans (h14.trans (h15.trans (h16.trans (h17.trans (h18.trans (h19.trans (h20.trans (h21.trans (h22.trans (h23.trans (h24))))))))))))))))))))))))


set_option maxHeartbeats 1000000 in
theorem specRhoPi_explicit (a0 a1 a2 a3 a4 a5 a6 a7 a8 a9 a10 a11 a12 a13 a14
    a15 a16 a17 a18 a19 a20 a21 a22 a23 a24 : Nat) :
    specRhoPi [a0, a1, a2, a3, a4, a5, a6, a7, a8, a9, a10, a11, a12, a13, a14, a15, a16, a17, a18, a19, a20, a21, a22, a23, a24] =
    [a0, rotl a6 44, rotl a12 43, rotl a18 21, rotl a24 14, rotl a3 28, rotl a9 20, rotl a10 3, rotl a16 45, rotl a22 61, rotl a1 1, rotl a7 6, rotl a13 25, rotl a19 8, rotl a20 18, rotl a4 27, rotl a5 36, rotl a11 10, rotl a17 15, rotl a23 56, rotl a2 62, rotl a8 55, rotl a14 39, rotl a15 41, rotl a21 2] := by
  show specRhoPiAux [a0, a1, a2, a3, a4, a5, a6, a7, a8, a9, a10, a11, a12, a13, a14, a15, a16, a17, a18, a19, a20, a21, a22, a23, a24] [1, 2, 3, 4, 5, 6, 7, 8, 9, 10, 11, 12, 13, 14, 15, 16, 17, 18, 19, 20, 21, 22, 23, 24] [a0, 0, 0, 0, 0, 0, 0, 0, 0, 0, 0, 0, 0, 0, 0, 0, 0, 0, 0, 0, 0, 0, 0, 0, 0] = _
  have h1 : specRhoPiAux [a0, a1, a2, a3, a4, a5, a6, a7, a8, a9, a10, a11, a12, a13, a14, a15, a16, a17, a18, a19, a20, a21, a22, a23, a24] [1, 2, 3, 4, 5, 6, 7, 8, 9, 10, 11, 12, 13, 14, 15, 16, 17, 18, 19, 20, 21, 22, 23, 24] [a0, 0, 0, 0, 0, 0, 0, 0, 0, 0, 0, 0, 0, 0, 0, 0, 0, 0, 0, 0, 0, 0, 0, 0, 0] =
      specRhoPiAux [a0, a1, a2, a3, a4, a5, a6, a7, a8, a9, a10, a11, a12, a13, a14, a15, a16, a17, a18, a19, a20, a21, a22, a23, a24] [2, 3, 4, 5, 6, 7, 8, 9, 10, 11, 12, 13, 14, 15, 16, 17, 18, 19, 20, 21, 22, 23, 24] [a0, 0, 0, 0, 0, 0, 0, 0, 0, 0, rotl a1 1, 0, 0, 0, 0, 0, 0, 0, 0, 0, 0, 0, 0, 0, 0] := rfl
  have h2 : specRhoPiAux [a0, a1, a2, a3, a4, a5, a6, a7, a8, a9, a10, a11, a12, a13, a14, a15, a16, a17, a18, a19, a20, a21, a22, a23, a24] [2, 3, 4, 5, 6, 7, 8, 9, 10, 11, 12, 13, 14, 15, 16, 17, 18, 19, 20, 21, 22, 23, 24] [a0, 0, 0, 0, 0, 0, 0, 0, 0, 0, rotl a1 1, 0, 0, 0, 0, 0, 0, 0, 0, 0, 0, 0, 0, 0, 0] =
      specRhoPiAux [a0, a1, a2, a3, a4, a5, a6, a7, a8, a9, a10, a11, a12, a13, a14, a15, a16, a17, a18, a19, a20, a21, a22, a23, a24] [3, 4, 5, 6, 7, 8, 9, 10, 11, 12, 13, 14, 15, 16, 17, 18, 19, 20, 21, 22, 23, 24] [a0, 0, 0, 0, 0, 0, 0, 0, 0, 0, rotl a1 1, 0, 0, 0, 0, 0, 0, 0, 0, 0, rotl a2 62, 0, 0, 0, 0] := rfl
  have h3 : specRhoPiAux [a0, a1, a2, a3, a4, a5, a6, a7, a8, a9, a10, a11, a12, a13, a14, a15, a16, a17, a18, a19, a20, a21, a22, a23, a24] [3, 4, 5, 6, 7, 8, 9, 10, 11, 12, 13, 14, 15, 16, 17, 18, 19, 20, 21, 22, 23, 24] [a0, 0, 0, 0, 0, 0, 0, 0, 0, 0, rotl a1 1, 0, 0, 0, 0, 0, 0, 0, 0, 0, rotl a2 62, 0, 0, 0, 0] =
      specRhoPiAux [a0, a1, a2, a3, a4, a5, a6, a7, a8, a9, a10, a11, a12, a13, a14, a15, a16, a17, a18, a19, a20, a21, a22, a23, a24] [4, 5, 6, 7, 8, 9, 10, 11, 12, 13, 14, 15, 16, 17, 18, 19, 20, 21, 22, 23, 24] [a0, 0, 0, 0, 0, rotl a3 28, 0, 0, 0, 0, rotl a1 1, 0, 0, 0, 0, 0, 0, 0, 0, 0, rotl a2 62, 0, 0, 0, 0] := rfl
  have h4 : specRhoPiAux [a0, a1, a2, a3, a4, a5, a6, a7, a8, a9, a10, a11, a12, a13, a14, a15, a16, a17, a18, a19, a20, a21, a22, a23, a24] [4, 5, 6, 7, 8, 9, 10, 11, 12, 13, 14, 15, 16, 17, 18, 19, 20, 21, 22, 23, 24] [a0, 0, 0, 0, 0, rotl a3 28, 0, 0, 0, 0, rotl a1 1, 0, 0, 0, 0, 0, 0, 0, 0, 0, rotl a2 62, 0, 0, 0, 0] =
      specRhoPiAux [a0, a1, a2, a3, a4, a5, a6, a7, a8, a9, a10, a11, a12, a13, a14, a15, a16, a17, a18, a19, a20, a21, a22, a23, a24] [5, 6, 7, 8, 9, 10, 11, 12, 13, 14, 15, 16, 17, 18, 19, 20, 21, 22, 23, 24] [a0, 0, 0, 0, 0, rotl a3 28, 0, 0, 0, 0, rotl a1 1, 0, 0, 0, 0, rotl a4 27, 0, 0, 0, 0, rotl a2 62, 0, 0, 0, 0] := rfl
  have h5 : specRhoPiAux [a0, a1, a2, a3, a4, a5, a6, a7, a8, a9, a10, a11, a12, a13, a14, a15, a16, a17, a18, a19, a20, a21, a22, a23, a24] [5, 6, 7, 8, 9, 10, 11, 12, 13, 14, 15, 16, 17, 18, 19, 20, 21, 22, 23, 24] [a0, 0, 0, 0, 0, rotl a3 28, 0, 0, 0, 0, rotl a1 1, 0, 0, 0, 0, rotl a4 27, 0, 0, 0, 0, rotl a2 62, 0, 0, 0, 0] =
      specRhoPiAux [a0, a1, a2, a3, a4, a5, a6, a7, a8, a9, a10, a11, a12, a13, a14, a15, a16, a17, a18, a19, a20, a21, a22, a23, a24] [6, 7, 8, 9, 10, 11, 12, 13, 14, 15, 16, 17, 18, 19, 20, 21, 22, 23, 24] [a0, 0, 0, 0, 0, rotl a3 28, 0, 0, 0, 0, rotl a1 1, 0, 0, 0, 0, rotl a4 27, rotl a5 36, 0, 0, 0, rotl a2 62, 0, 0, 0, 0] := rfl
  have h6 : specRhoPiAux [a0, a1, a2, a3, a4, a5, a6, a7, a8, a9, a10, a11, a12, a13, a14, a15, a16, a17, a18, a19, a20, a21, a22, a23, a24] [6, 7, 8, 9, 10, 11, 12, 13, 14, 15, 16, 17, 18, 19, 20, 21, 22, 23, 24] [a0, 0, 0, 0, 0, rotl a3 28, 0, 0, 0, 0, rotl a1 1, 0, 0, 0, 0, rotl a4 27, rotl a5 36, 0, 0, 0, rotl a2 62, 0, 0, 0, 0] =
      specRhoPiAux [a0, a1, a2, a3, a4, a5, a6, a7, a8, a9, a10, a11, a12, a13, a14, a15, a16, a17, a18, a19, a20, a21, a22, a23, a24] [7, 8, 9, 10, 11, 12, 13, 14, 15, 16, 17, 18, 19, 20, 21, 22, 23, 24] [a0, rotl a6 44, 0, 0, 0, rotl a3 28, 0, 0, 0, 0, rotl a1 1, 0, 0, 0, 0, rotl a4 27, rotl a5 36, 0, 0, 0, rotl a2 62, 0, 0, 0, 0] := rfl
  have h7 : specRhoPiAux [a0, a1, a2, a3, a4, a5, a6, a7, a8, a9, a10, a11, a12, a13, a14, a15, a16, a17, a18, a19, a20, a21, a22, a23, a24] [7, 8, 9, 10, 11, 12, 13, 14, 15, 16, 17, 18, 19, 20, 21, 22, 23, 24] [a0, rotl a6 44, 0, 0, 0, rotl a3 28, 0, 0, 0, 0, rotl a1 1, 0, 0, 0, 0, rotl a4 27, rotl a5 36, 0, 0, 0, rotl a2 62, 0, 0, 0, 0] =
      specRhoPiAux [a0, a1, a2, a3, a4, a5, a6, a7, a8, a9, a10, a11, a12, a13, a14, a15, a16, a17, a18, a19, a20, a21, a22, a23, a24] [8, 9, 10, 11, 12, 13, 14, 15, 16, 17, 18, 19, 20, 21, 22, 23, 24] [a0, rotl a6 44, 0, 0, 0, rotl a3 28, 0, 0, 0, 0, rotl a1 1, rotl a7 6, 0, 0, 0, rotl a4 27, rotl a5 36, 0, 0, 0, rotl a2 62, 0, 0, 0, 0] := rfl
  have h8 : specRhoPiAux [a0, a1, a2, a3, a4, a5, a6, a7, a8, a9, a10, a11, a12, a13, a14, a15, a16, a17, a18, a19, a20, a21, a22, a23, a24] [8, 9, 10, 11, 12, 13, 14, 15, 16, 17, 18, 19, 20, 21, 22, 23, 24] [a0, rotl a6 44, 0, 0, 0, rotl a3 28, 0, 0, 0, 0, rotl a1 1, rotl a7 6, 0, 0, 0, rotl a4 27, rotl a5 36, 0, 0, 0, rotl a2 62, 0, 0, 0, 0] =
      specRhoPiAux [a0, a1, a2, a3, a4, a5, a6, a7, a8, a9, a10, a11, a12, a13, a14, a15, a16, a17, a18, a19, a20, a21, a22, a23, a24] [9, 10, 11, 12, 13, 14, 15, 16, 17, 18, 19, 20, 21, 22, 23, 24] [a0, rotl a6 44, 0, 0, 0, rotl a3 28, 0, 0, 0, 0, rotl a1 1, rotl a7 6, 0, 0, 0, rotl a4 27, rotl a5 36, 0, 0, 0, rotl a2 62, rotl a8 55, 0, 0, 0] := rfl
  have h9 : specRhoPiAux [a0, a1, a2, a3, a4, a5, a6, a7, a8, a9, a10, a11, a12, a13, a14, a15, a16, a17, a18, a19, a20, a21, a22, a23, a24] [9, 10, 11, 12, 13, 14, 15, 16, 17, 18, 19, 20, 21, 22, 23, 24] [a0, rotl a6 44, 0, 0, 0, rotl a3 28, 0, 0, 0, 0, rotl a1 1, rotl a7 6, 0, 0, 0, rotl a4 27, rotl a5 36, 0, 0, 0, rotl a2 62, rotl a8 55, 0, 0, 0] =
      specRhoPiAux [a0, a1, a2, a3, a4, a5, a6, a7, a8, a9, a10, a11, a12, a13, a14, a15, a16, a17, a18, a19, a20, a21, a22, a23, a24] [10, 11, 12, 13, 14, 15, 16, 17, 18, 19, 20, 21, 22, 23, 24] [a0, rotl a6 44, 0, 0, 0, rotl a3 28, rotl a9 20, 0, 0, 0, rotl a1 1, rotl a7 6, 0, 0, 0, rotl a4 27, rotl a5 36, 0, 0, 0, rotl a2 62, rotl a8 55, 0, 0, 0] := rfl
  have h10 : specRhoPiAux [a0, a1, a2, a3, a4, a5, a6, a7, a8, a9, a10, a11, a12, a13, a14, a15, a16, a17, a18, a19, a20, a21, a22, a23, a24] [10, 11, 12, 13, 14, 15, 16, 17, 18, 19, 20, 21, 22, 23, 24] [a0, rotl a6 44, 0, 0, 0, rotl a3 28, rotl a9 20, 0, 0, 0, rotl a1 1, rotl a7 6, 0, 0, 0, rotl a4 27, rotl a5 36, 0, 0, 0, rotl a2 62, rotl a8 55, 0, 0, 0] =
      specRhoPiAux [a0, a1, a2, a3, a4, a5, a6, a7, a8, a9, a10, a11, a12, a13, a14, a15, a16, a17, a18, a19, a20, a21, a22, a23, a24] [11, 12, 13, 14, 15, 16, 17, 18, 19, 20, 21, 22, 23, 24] [a0, rotl a6 44, 0, 0, 0, rotl a3 28, rotl a9 20, rotl a10 3, 0, 0, rotl a1 1, rotl a7 6, 0, 0, 0, rotl a4 27, rotl a5 36, 0, 0, 0, rotl a2 62, rotl a8 55, 0, 0, 0] := rfl
  have h11 : specRhoPiAux [a0, a1, a2, a3, a4, a5, a6, a7, a8, a9, a10, a11, a12, a13, a14, a15, a16, a17, a18, a19, a20, a21, a22, a23, a24] [11, 12, 13, 14, 15, 16, 17, 18, 19, 20, 21, 22, 23, 24] [a0, rotl a6 44, 0, 0, 0, rotl a3 28, rotl a9 20, rotl a10 3, 0, 0, rotl a1 1, rotl a7 6, 0, 0, 0, rotl a4 27, rotl a5 36, 0, 0, 0, rotl a2 62, rotl a8 55, 0, 0, 0] =
      specRhoPiAux [a0, a1, a2, a3, a4, a5, a6, a7, a8, a9, a10, a11, a12, a13, a14, a15, a16, a17, a18, a19, a20, a21, a22, a23, a24] [12, 13, 14, 15, 16, 17, 18, 19, 20, 21, 22, 23, 24] [a0, rotl a6 44, 0, 0, 0, rotl a3 28, rotl a9 20, rotl a10 3, 0, 0, rotl a1 1, rotl a7 6, 0, 0, 0, rotl a4 27, rotl a5 36, rotl a11 10, 0, 0, rotl a2 62, rotl a8 55, 0, 0, 0] := rfl
  have h12 : specRhoPiAux [a0, a1, a2, a3, a4, a5, a6, a7, a8, a9, a10, a11, a12, a13, a14, a15, a16, a17, a18, a19, a20, a21, a22, a23, a24] [12, 13, 14, 15, 16, 17, 18, 19, 20, 21, 22, 23, 24] [a0, rotl a6 44, 0, 0, 0, rotl a3 28, rotl a9 20, rotl a10 3, 0, 0, rotl a1 1, rotl a7 6, 0, 0, 0, rotl a4 27, rotl a5 36, rotl a11 10, 0, 0, rotl a2 62, rotl a8 55, 0, 0, 0] =
      specRhoPiAux [a0, a1, a2, a3, a4, a5, a6, a7, a8, a9, a10, a11, a12, a13, a14, a15, a16, a17, a18, a19, a20, a21, a22, a23, a24] [13, 14, 15, 16, 17, 18, 19, 20, 21, 22, 23, 24] [a0, rotl a6 44, rotl a12 43, 0, 0, rotl a3 28, rotl a9 20, rotl a10 3, 0, 0, rotl a1 1, rotl a7 6, 0, 0, 0, rotl a4 27, rotl a5 36, rotl a11 10, 0, 0, rotl a2 62, rotl a8 55, 0, 0, 0] := rfl
  have h13 : specRhoPiAux [a0, a1, a2, a3, a4, a5, a6, a7, a8, a9, a10, a11, a12, a13, a14, a15, a16, a17, a18, a19, a20, a21, a22, a23, a24] [13, 14, 15, 16, 17, 18, 19, 20, 21, 22, 23, 24] [a0, rotl a6 44, rotl a12 43, 0, 0, rotl a3 28, rotl a9 20, rotl a10 3, 0, 0, rotl a1 1, rotl a7 6, 0, 0, 0, rotl a4 27, rotl a5 36, rotl a11 10, 0, 0, rotl a2 62, rotl a8 55, 0, 0, 0] =
      specRhoPiAux [a0, a1, a2, a3, a4, a5, a6, a7, a8, a9, a10, a11, a12, a13, a14, a15, a16, a17, a18, a19, a20, a21, a22, a23, a24] [14, 15, 16, 17, 18, 19, 20, 21, 22, 23, 24] [a0, rotl a6 44, rotl a12 43, 0, 0, rotl a3 28, rotl a9 20, rotl a10 3, 0, 0, rotl a1 1, rotl a7 6, rotl a13 25, 0, 0, rotl a4 27, rotl a5 36, rotl a11 10, 0, 0, rotl a2 62, rotl a8 55, 0, 0, 0] := rfl
  have h14 : specRhoPiAux [a0, a1, a2, a3, a4, a5, a6, a7, a8, a9, a10, a11, a12, a13, a14, a15, a16, a17, a18, a19, a20, a21, a22, a23, a24] [14, 15, 16, 17, 18, 19, 20, 21, 22, 23, 24] [a0, rotl a6 44, rotl a12 43, 0, 0, rotl a3 28, rotl a9 20, rotl a10 3, 0, 0, rotl a1 1, rotl a7 6, rotl a13 25, 0, 0, rotl a4 27, rotl a5 36, rotl a11 10, 0, 0, rotl a2 62, rotl a8 55, 0, 0, 0] =
      specRhoPiAux [a0, a1, a2, a3, a4, a5, a6, a7, a8, a9, a10, a11, a12, a13, a14, a15, a16, a17, a18, a19, a20, a21, a22, a23, a24] [15, 16, 17, 18, 19, 20, 21, 22, 23, 24] [a0, rotl a6 44, rotl a12 43, 0, 0, rotl a3 28, rotl a9 20, rotl a10 3, 0, 0, rotl a1 1, rotl a7 6, rotl a13 25, 0, 0, rotl a4 27, rotl a5 36, rotl a11 10, 0, 0, rotl a2 62, rotl a8 55, rotl a14 39, 0, 0] := rfl
  have h15 : specRhoPiAux [a0, a1, a2, a3, a4, a5, a6, a7, a8, a9, a10, a11, a12, a13, a14, a15, a16, a17, a18, a19, a20, a21, a22, a23, a24] [15, 16, 17, 18, 19, 20, 21, 22, 23, 24] [a0, rotl a6 44, rotl a12 43, 0, 0, rotl a3 28, rotl a9 20, rotl a10 3, 0, 0, rotl a1 1, rotl a7 6, rotl a13 25, 0, 0, rotl a4 27, rotl a5 36, rotl a11 10, 0, 0, rotl a2 62, rotl a8 55, rotl a14 39, 0, 0] =
      specRhoPiAux [a0, a1, a2, a3, a4, a5, a6, a7, a8, a9, a10, a11, a12, a13, a14, a15, a16, a17, a18, a19, a20, a21, a22, a23, a24] [16, 17, 18, 19, 20, 21, 22, 23, 24] [a0, rotl a6 44, rotl a12 43, 0, 0, rotl a3 28, rotl a9 20, rotl a10 3, 0, 0, rotl a1 1, rotl a7 6, rotl a13 25, 0, 0, rotl a4 27, rotl a5 36, rotl a11 10, 0, 0, rotl a2 62, rotl a8 55, rotl a14 39, rotl a15 41, 0] := rfl
  have h16 : specRhoPiAux [a0, a1, a2, a3, a4, a5, a6, a7, a8, a9, a10, a11, a12, a13, a14, a15, a16, a17, a18, a19, a20, a21, a22, a23, a24] [16, 17, 18, 19, 20, 21, 22, 23, 24] [a0, rotl a6 44, rotl a12 43, 0, 0, rotl a3 28, rotl a9 20, rotl a10 3, 0, 0, rotl a1 1, rotl a7 6, rotl a13 25, 0, 0, rotl a4 27, rotl a5 36, rotl a11 10, 0, 0, rotl a2 62, rotl a8 55, rotl a14 39, rotl a15 41, 0] =
      specRhoPiAux [a0, a1, a2, a3, a4, a5, a6, a7, a8, a9, a10, a11, a12, a13, a14, a15, a16, a17, a18, a19, a20, a21, a22, a23, a24] [17, 18, 19, 20, 21, 22, 23, 24] [a0, rotl a6 44, rotl a12 43, 0, 0, rotl a3 28, rotl a9 20, rotl a10 3, rotl a16 45, 0, rotl a1 1, rotl a7 6, rotl a13 25, 0, 0, rotl a4 27, rotl a5 36, rotl a11 10, 0, 0, rotl a2 62, rotl a8 55, rotl a14 39, rotl a15 41, 0] := rfl
  have h17 : specRhoPiAux [a0, a1, a2, a3, a4, a5, a6, a7, a8, a9, a10, a11, a12, a13, a14, a15, a16, a17, a18, a19, a20, a21, a22, a23, a24] [17, 18, 19, 20, 21, 22, 23, 24] [a0, rotl a6 44, rotl a12 43, 0, 0, rotl a3 28, rotl a9 20, rotl a10 3, rotl a16 45, 0, rotl a1 1, rotl a7 6, rotl a13 25, 0, 0, rotl a4 27, rotl a5 36, rotl a11 10, 0, 0, rotl a2 62, rotl a8 55, rotl a14 39, rotl a15 41, 0] =
      specRhoPiAux [a0, a1, a2, a3, a4, a5, a6, a7, a8, a9, a10, a11, a12, a13, a14, a15, a16, a17, a18, a19, a20, a21, a22, a23, a24] [18, 19, 20, 21, 22, 23, 24] [a0, rotl a6 44, rotl a12 43, 0, 0, rotl a3 28, rotl a9 20, rotl a10 3, rotl a16 45, 0, rotl a1 1, rotl a7 6, rotl a13 25, 0, 0, rotl a4 27, rotl a5 36, rotl a11 10, rotl a17 15, 0, rotl a2 62, rotl a8 55, rotl a14 39, rotl a15 41, 0] := rfl
  have h18 : specRhoPiAux [a0, a1, a2, a3, a4, a5, a6, a7, a8, a9, a10, a11, a12, a13, a14, a15, a16, a17, a18, a19, a20, a21, a22, a23, a24] [18, 19, 20, 21, 22, 23, 24] [a0, rotl a6 44, rotl a12 43, 0, 0, rotl a3 28, rotl a9 20, rotl a10 3, rotl a16 45, 0, rotl a1 1, rotl a7 6, rotl a13 25, 0, 0, rotl a4 27, rotl a5 36, rotl a11 10, rotl a17 15, 0, rotl a2 62, rotl a8 55, rotl a14 39, rotl a15 41, 0] =
      specRhoPiAux [a0, a1, a2, a3, a4, a5, a6, a7, a8, a9, a10, a11, a12, a13, a14, a15, a16, a17, a18, a19, a20, a21, a22, a23, a24] [19, 20, 21, 22, 23, 24] [a0, rotl a6 44, rotl a12 43, rotl a18 21, 0, rotl a3 28, rotl a9 20, rotl a10 3, rotl a16 45, 0, rotl a1 1, rotl a7 6, rotl a13 25, 0, 0, rotl a4 27, rotl a5 36, rotl a11 10, rotl a17 15, 0, rotl a2 62, rotl a8 55, rotl a14 39, rotl a15 41, 0] := rfl
  have h19 : specRhoPiAux [a0, a1, a2, a3, a4, a5, a6, a7, a8, a9, a10, a11, a12, a13, a14, a15, a16, a17, a18, a19, a20, a21, a22, a23, a24] [19, 20, 21, 22, 23, 24] [a0, rotl a6 44, rotl a12 43, rotl a18 21, 0, rotl a3 28, rotl a9 20, rotl a10 3, rotl a16 45, 0, rotl a1 1, rotl a7 6, rotl a13 25, 0, 0, rotl a4 27, rotl a5 36, rotl a11 10, rotl a17 15, 0, rotl a2 62, rotl a8 55, rotl a14 39, rotl a15 41, 0] =
      specRhoPiAux [a0, a1, a2, a3, a4, a5, a6, a7, a8, a9, a10, a11, a12, a13, a14, a15, a16, a17, a18, a19, a20, a21, a22, a23, a24] [20, 21, 22, 23, 24] [a0, rotl a6 44, rotl a12 43, rotl a18 21, 0, rotl a3 28, rotl a9 20, rotl a10 3, rotl a16 45, 0, rotl a1 1, rotl a7 6, rotl a13 25, rotl a19 8, 0, rotl a4 27, rotl a5 36, rotl a11 10, rotl a17 15, 0, rotl a2 62, rotl a8 55, rotl a14 39, rotl a15 41, 0] := rfl
  have h20 : specRhoPiAux [a0, a1, a2, a3, a4, a5, a6, a7, a8, a9, a10, a11, a12, a13, a14, a15, a16, a17, a18, a19, a20, a21, a22, a23, a24] [20, 21, 22, 23, 24] [a0, rotl a6 44, rotl a12 43, rotl a18 21, 0, rotl a3 28, rotl a9 20, rotl a10 3, rotl a16 45, 0, rotl a1 1, rotl a7 6, rotl a13 25, rotl a19 8, 0, rotl a4 27, rotl a5 36, rotl a11 10, rotl a17 15, 0, rotl a2 62, rotl a8 55, rotl a14 39, rotl a15 41, 0] =
      specRhoPiAux [a0, a1, a2, a3, a4, a5, a6, a7, a8, a9, a10, a11, a12, a13, a14, a15, a16, a17, a18, a19, a20, a21, a22, a23, a24] [21, 22, 23, 24] [a0, rotl a6 44, rotl a12 43, rotl a18 21, 0, rotl a3 28, rotl a9 20, rotl a10 3, rotl a16 45, 0, rotl a1 1, rotl a7 6, rotl a13 25, rotl a19 8, rotl a20 18, rotl a4 27, rotl a5 36, rotl a11 10, rotl a17 15, 0, rotl a2 62, rotl a8 55, rotl a14 39, rotl a15 41, 0] := rfl
  have h21 : specRhoPiAux [a0, a1, a2, a3, a4, a5, a6, a7, a8, a9, a10, a11, a12, a13, a14, a15, a16, a17, a18, a19, a20, a21, a22, a23, a24] [21, 22, 23, 24] [a0, rotl a6 44, rotl a12 43, rotl a18 21, 0, rotl a3 28, rotl a9 20, rotl a10 3, rotl a16 45, 0, rotl a1 1, rotl a7 6, rotl a13 25, rotl a19 8, rotl a20 18, rotl a4 27, rotl a5 36, rotl a11 10, rotl a17 15, 0, rotl a2 62, rotl a8 55, rotl a14 39, rotl a15 41, 0] =
      specRhoPiAux [a0, a1, a2, a3, a4, a5, a6, a7, a8, a9, a10, a11, a12, a13, a14, a15, a16, a17, a18, a19, a20, a21, a22, a23, a24] [22, 23, 24] [a0, rotl a6 44, rotl a12 43, rotl a18 21, 0, rotl a3 28, rotl a9 20, rotl a10 3, rotl a16 45, 0, rotl a1 1, rotl a7 6, rotl a13 25, rotl a19 8, rotl a20 18, rotl a4 27, rotl a5 36, rotl a11 10, rotl a17 15, 0, rotl a2 62, rotl a8 55, rotl a14 39, rotl a15 41, rotl a21 2] := rfl
  have h22 : specRhoPiAux [a0, a1, a2, a3, a4, a5, a6, a7, a8, a9, a10, a11, a12, a13, a14, a15, a16, a17, a18, a19, a20, a21, a22, a23, a24] [22, 23, 24] [a0, rotl a6 44, rotl a12 43, rotl a18 21, 0, rotl a3 28, rotl a9 20, rotl a10 3, rotl a16 45, 0, rotl a1 1, rotl a7 6, rotl a13 25, rotl a19 8, rotl a20 18, rotl a4 27, rotl a5 36, rotl a11 10, rotl a17 15, 0, rotl a2 62, rotl a8 55, rotl a14 39, rotl a15 41, rotl a21 2] =
      specRhoPiAux [a0, a1, a2, a3, a4, a5, a6, a7, a8, a9, a10, a11, a12, a13, a14, a15, a16, a17, a18, a19, a20, a21, a22, a23, a24] [23, 24] [a0, rotl a6 44, rotl a12 43, rotl a18 21, 0, rotl a3 28, rotl a9 20, rotl a10 3, rotl a16 45, rotl a22 61, rotl a1 1, rotl a7 6, rotl a13 25, rotl a19 8, rotl a20 18, rotl a4 27, rotl a5 36, rotl a11 10, rotl a17 15, 0, rotl a2 62, rotl a8 55, rotl a14 39, rotl a15 41, rotl a21 2] := rfl
  have h23 : specRhoPiAux [a0, a1, a2, a3, a4, a5, a6, a7, a8, a9, a10, a11, a12, a13, a14, a15, a16, a17, a18, a19, a20, a21, a22, a23, a24] [23, 24] [a0, rotl a6 44, rotl a12 43, rotl a18 21, 0, rotl a3 28, rotl a9 20, rotl a10 3, rotl a16 45, rotl a22 61, rotl a1 1, rotl a7 6, rotl a13 25, rotl a19 8, rotl a20 18, rotl a4 27, rotl a5 36, rotl a11 10, rotl a17 15, 0, rotl a2 62, rotl a8 55, rotl a14 39, rotl a15 41, rotl a21 2] =
      specRhoPiAux [a0, a1, a2, a3, a4, a5, a6, a7, a8, a9, a10, a11, a12, a13, a14, a15, a16, a17, a18, a19, a20, a21, a22, a23, a24] [24] [a0, rotl a6 44, rotl a12 43, rotl a18 21, 0, rotl a3 28, rotl a9 20, rotl a10 3, rotl a16 45, rotl a22 61, rotl a1 1, rotl a7 6, rotl a13 25, rotl a19 8, rotl a20 18, rotl a4 27, rotl a5 36, rotl a11 10, rotl a17 15, rotl a23 56, rotl a2 62, rotl a8 55, rotl a14 39, rotl a15 41, rotl a21 2] := rfl
  have h24 : specRhoPiAux [a0, a1, a2, a3, a4, a5, a6, a7, a8, a9, a10, a11, a12, a13, a14, a15, a16, a17, a18, a19, a20, a21, a22, a23, a24] [24] [a0, rotl a6 44, rotl a12 43, rotl a18 21, 0, rotl a3 28, rotl a9 20, rotl a10 3, rotl a16 45, rotl a22 61, rotl a1 1, rotl a7 6, rotl a13 25, rotl a19 8, rotl a20 18, rotl a4 27, rotl a5 36, rotl a11 10, rotl a17 15, rotl a23 56, rotl a2 62, rotl a8 55, rotl a14 39, rotl a15 41, rotl a21 2] =
      specRhoPiAux [a0, a1, a2, a3, a4, a5, a6, a7, a8, a9, a10, a11, a12, a13, a14, a15, a16, a17, a18, a19, a20, a21, a22, a23, a24] [] [a0, rotl a6 44, rotl a12 43, rotl a18 21, rotl a24 14, rotl a3 28, rotl a9 20, rotl a10 3, rotl a16 45, rotl a22 61, rotl a1 1, rotl a7 6, rotl a13 25, rotl a19 8, rotl a20 18, rotl a4 27, rotl a5 36, rotl a11 10, rotl a17 15, rotl a23 56, rotl a2 62, rotl a8 55, rotl a14 39, rotl a15 41, rotl a21 2] := rfl
  have h25 : specRhoPiAux [a0, a1, a2, a3, a4, a5, a6, a7, a8, a9, a10, a11, a12, a13, a14, a15, a16, a17, a18, a19, a20, a21, a22, a23, a24] [] [a0, rotl a6 44, rotl a12 43, rotl a18 21, rotl a24 14, rotl a3 28, rotl a9 20, rotl a10 3, rotl a16 45, rotl a22 61, rotl a1 1, rotl a7 6, rotl a13 25, rotl a19 8, rotl a20 18, rotl a4 27, rotl a5 36, rotl a11 10, rotl a17 15, rotl a23 56, rotl a2 62, rotl a8 55, rotl a14 39, rotl a15 41, rotl a21 2] = [a0, rotl a6 44, rotl a12 43, rotl a18 21, rotl a24 14, rotl a3 28, rotl a9 20, rotl a10 3, rotl a16 45, rotl a22 61, rotl a1 1, rotl a7 6, rotl a13 25, rotl a19 8, rotl a20 18, rotl a4 27, rotl a5 36, rotl a11 10, rotl a17 15, rotl a23 56, rotl a2 62, rotl a8 55, rotl a14 39, rotl a15 41, rotl a21 2] := rfl
  exact h1.trans (h2.trans (h3.trans (h4.trans (h5.trans (h6.trans (h7.trans (h8.trans (h9.trans (h10.trans (h11.trans (h12.trans (h13.trans (h14.trans (h15.trans (h16.trans (h17.trans (h18.trans (h19.trans (h20.trans (h21.trans (h22.trans (h23.trans (h24.trans (h25))))))))))))))))))))))))


theorem rhoPi_eq_spec {s : State} (h : s.length = 25) : rhoPi s = specRhoPi s := by
  obtain ⟨a0, a1, a2, a3, a4, a5, a6, a7, a8, a9, a10, a11, a12, a13, a14,
    a15, a16, a17, a18, a19, a20, a21, a22, a23, a24, rfl⟩ := exists25 s h
  rw [rhoPi_explicit, specRhoPi_explicit]

/-! ## Chi structure -/

theorem chi_explicit (a0 a1 a2 a3 a4 a5 a6 a7 a8 a9 a10 a11 a12 a13 a14 a15
    a16 a17 a18 a19 a20 a21 a22 a23 a24 : Nat) :
    chi [a0, a1, a2, a3, a4, a5, a6, a7, a8, a9, a10, a11, a12, a13, a14, a15, a16, a17, a18, a19, a20, a21, a22, a23, a24] =
    [a0 ^^^ (comp64 a1 &&& a2), a1 ^^^ (comp64 a2 &&& a3), a2 ^^^ (comp64 a3 &&& a4), a3 ^^^ (comp64 a4 &&& a0), a4 ^^^ (comp64 a0 &&& a1), a5 ^^^ (comp64 a6 &&& a7), a6 ^^^ (comp64 a7 &&& a8), a7 ^^^ (comp64 a8 &&& a9), a8 ^^^ (comp64 a9 &&& a5), a9 ^^^ (comp64 a5 &&& a6), a10 ^^^ (comp64 a11 &&& a12), a11 ^^^ (comp64 a12 &&& a13), a12 ^^^ (comp64 a13 &&& a14), a13 ^^^ (comp64 a14 &&& a10), a14 ^^^ (comp64 a10 &&& a11), a15 ^^^ (comp64 a16 &&& a17), a16 ^^^ (comp64 a17 &&& a18), a17 ^^^ (comp64 a18 &&& a19), a18 ^^^ (comp64 a19 &&& a15), a19 ^^^ (comp64 a15 &&& a16), a20 ^^^ (comp64 a21 &&& a22), a21 ^^^ (comp64 a22 &&& a23), a22 ^^^ (comp64 a23 &&& a24), a23 ^^^ (comp64 a24 &&& a20), a24 ^^^ (comp64 a20 &&& a21)] := by
  rfl

theorem chi_length (s : State) : (chi s).length = 25 := by
  simp [chi]

/-! ## Rho+Pi injectivity -/

theorem rhoPiAux_length (l : List Nat) (a : State) (w : Lane) :
    (rhoPiAux l a w).length = a.length := by
  induction l generalizing a w with
  | nil => rfl
  | cons i is ih => simp [rhoPiAux, ih]

theorem rhoPi_length (s : State) : (rhoPi s).length = s.length := by
  unfold rhoPi
  exact rhoPiAux_length _ _ _

theorem rhoPi_inj {s1 s2 : State} (h1 : Valid s1) (h2 : Valid s2)
    (h : rhoPi s1 = rhoPi s2) : s1 = s2 := by
  obtain ⟨a0, a1, a2, a3, a4, a5, a6, a7, a8, a9, a10, a11, a12, a13, a14,
    a15, a16, a17, a18, a19, a20, a21, a22, a23, a24, rfl⟩ := exists25 s1 h1.1
  obtain ⟨b0, b1, b2, b3, b4, b5, b6, b7, b8, b9, b10, b11, b12, b13, b14,
    b15, b16, b17, b18, b19, b20, b21, b22, b23, b24, rfl⟩ := exists25 s2 h2.1
  rw [rhoPi_explicit, rhoPi_explicit] at h
  simp only [List.cons.injEq, and_true] at h
  obtain ⟨e0, e1, e2, e3, e4, e5, e6, e7, e8, e9, e10, e11, e12, e13, e14, e15, e16, e17, e18, e19, e20, e21, e22, e23, e24⟩ := h
  have hxa0 : a0 < 2 ^ 64 := h1.2 a0 (by simp)
  have hxb0 : b0 < 2 ^ 64 := h2.2 b0 (by simp)
  have hxa1 : a1 < 2 ^ 64 := h1.2 a1 (by simp)
  have hxb1 : b1 < 2 ^ 64 := h2.2 b1 (by simp)
  have hxa2 : a2 < 2 ^ 64 := h1.2 a2 (by simp)
  have hxb2 : b2 < 2 ^ 64 := h2.2 b2 (by simp)
  have hxa3 : a3 < 2 ^ 64 := h1.2 a3 (by simp)
  have hxb3 : b3 < 2 ^ 64 := h2.2 b3 (by simp)
  have hxa4 : a4 < 2 ^ 64 := h1.2 a4 (by simp)
  have hxb4 : b4 < 2 ^ 64 := h2.2 b4 (by simp)
  have hxa5 : a5 < 2 ^ 64 := h1.2 a5 (by simp)
  have hxb5 : b5 < 2 ^ 64 := h2.2 b5 (by simp)
  have hxa6 : a6 < 2 ^ 64 := h1.2 a6 (by simp)
  have hxb6 : b6 < 2 ^ 64 := h2.2 b6 (by simp)
  have hxa7 : a7 < 2 ^ 64 := h1.2 a7 (by simp)
  have hxb7 : b7 < 2 ^ 64 := h2.2 b7 (by simp)
  have hxa8 : a8 < 2 ^ 64 := h1.2 a8 (by simp)
  have hxb8 : b8 < 2 ^ 64 := h2.2 b8 (by simp)
  have hxa9 : a9 < 2 ^ 64 := h1.2 a9 (by simp)
  have hxb9 : b9 < 2 ^ 64 := h2.2 b9 (by simp)
  have hxa10 : a10 < 2 ^ 64 := h1.2 a10 (by simp)
  have hxb10 : b10 < 2 ^ 64 := h2.2 b10 (by simp)
  have hxa11 : a11 < 2 ^ 64 := h1.2 a11 (by simp)
  have hxb11 : b11 < 2 ^ 64 := h2.2 b11 (by simp)
  have hxa12 : a12 < 2 ^ 64 := h1.2 a12 (by simp)
  have hxb12 : b12 < 2 ^ 64 := h2.2 b12 (by simp)
  have hxa13 : a13 < 2 ^ 64 := h1.2 a13 (by simp)
  have hxb13 : b13 < 2 ^ 64 := h2.2 b13 (by simp)
  have hxa14 : a14 < 2 ^ 64 := h1.2 a14 (by simp)
  have hxb14 : b14 < 2 ^ 64 := h2.2 b14 (by simp)
  have hxa15 : a15 < 2 ^ 64 := h1.2 a15 (by simp)
  have hxb15 : b15 < 2 ^ 64 := h2.2 b15 (by simp)
  have hxa16 : a16 < 2 ^ 64 := h1.2 a16 (by simp)
  have hxb16 : b16 < 2 ^ 64 := h2.2 b16 (by simp)
  have hxa17 : a17 < 2 ^ 64 := h1.2 a17 (by simp)
  have hxb17 : b17 < 2 ^ 64 := h2.2 b17 (by simp)
  have hxa18 : a18 < 2 ^ 64 := h1.2 a18 (by simp)
  have hxb18 : b18 < 2 ^ 64 := h2.2 b18 (by simp)
  have hxa19 : a19 < 2 ^ 64 := h1.2 a19 (by simp)
  have hxb19 : b19 < 2 ^ 64 := h2.2 b19 (by simp)
  have hxa20 : a20 < 2 ^ 64 := h1.2 a20 (by simp)
  have hxb20 : b20 < 2 ^ 64 := h2.2 b20 (by simp)
  have hxa21 : a21 < 2 ^ 64 := h1.2 a21 (by simp)
  have hxb21 : b21 < 2 ^ 64 := h2.2 b21 (by simp)
  have hxa22 : a22 < 2 ^ 64 := h1.2 a22 (by simp)
  have hxb22 : b22 < 2 ^ 64 := h2.2 b22 (by simp)
  have hxa23 : a23 < 2 ^ 64 := h1.2 a23 (by simp)
  have hxb23 : b23 < 2 ^ 64 := h2.2 b23 (by simp)
  have hxa24 : a24 < 2 ^ 64 := h1.2 a24 (by simp)
  have hxb24 : b24 < 2 ^ 64 := h2.2 b24 (by simp)
  have f0 : a0 = b0 := e0
  have f6 : a6 = b6 := rotl_inj hxa6 hxb6 44 e1
  have f12 : a12 = b12 := rotl_inj hxa12 hxb12 43 e2
  have f18 : a18 = b18 := rotl_inj hxa18 hxb18 21 e3
  have f24 : a24 = b24 := rotl_inj hxa24 hxb24 14 e4
  have f3 : a3 = b3 := rotl_inj hxa3 hxb3 28 e5
  have f9 : a9 = b9 := rotl_inj hxa9 hxb9 20 e6
  have f10 : a10 = b10 := rotl_inj hxa10 hxb10 3 e7
  have f16 : a16 = b16 := rotl_inj hxa16 hxb16 45 e8
  have f22 : a22 = b22 := rotl_inj hxa22 hxb22 61 e9
  have f1 : a1 = b1 := rotl_inj hxa1 hxb1 1 e10
  have f7 : a7 = b7 := rotl_inj hxa7 hxb7 6 e11
  have f13 : a13 = b13 := rotl_inj hxa13 hxb13 25 e12
  have f19 : a19 = b19 := rotl_inj hxa19 hxb19 8 e13
  have f20 : a20 = b20 := rotl_inj hxa20 hxb20 18 e14
  have f4 : a4 = b4 := rotl_inj hxa4 hxb4 27 e15
  have f5 : a5 = b5 := rotl_inj hxa5 hxb5 36 e16
  have f11 : a11 = b11 := rotl_inj hxa11 hxb11 10 e17
  have f17 : a17 = b17 := rotl_inj hxa17 hxb17 15 e18
  have f23 : a23 = b23 := rotl_inj hxa23 hxb23 56 e19
  have f2 : a2 = b2 := rotl_inj hxa2 hxb2 62 e20
  have f8 : a8 = b8 := rotl_inj hxa8 hxb8 55 e21
  have f14 : a14 = b14 := rotl_inj hxa14 hxb14 39 e22
  have f15 : a15 = b15 := rotl_inj hxa15 hxb15 41 e23
  have f21 : a21 = b21 := rotl_inj hxa21 hxb21 2 e24
  rw [f0, f1, f2, f3, f4, f5, f6, f7, f8, f9, f10, f11, f12, f13, f14, f15, f16, f17, f18, f19, f20, f21, f22, f23, f24]

/-! ## Chi injectivity (bit-sliced) -/

theorem chiRow_inj {x0 x1 x2 x3 x4 y0 y1 y2 y3 y4 : Nat}
    (hx0 : x0 < 2 ^ 64) (hx1 : x1 < 2 ^ 64) (hx2 : x2 < 2 ^ 64)
    (hx3 : x3 < 2 ^ 64) (hx4 : x4 < 2 ^ 64)
    (hy0 : y0 < 2 ^ 64) (hy1 : y1 < 2 ^ 64) (hy2 : y2 < 2 ^ 64)
    (hy3 : y3 < 2 ^ 64) (hy4 : y4 < 2 ^ 64)
    (e0 : x0 ^^^ (comp64 x1 &&& x2) = y0 ^^^ (comp64 y1 &&& y2))
    (e1 : x1 ^^^ (comp64 x2 &&& x3) = y1 ^^^ (comp64 y2 &&& y3))
    (e2 : x2 ^^^ (comp64 x3 &&& x4) = y2 ^^^ (comp64 y3 &&& y4))
    (e3 : x3 ^^^ (comp64 x4 &&& x0) = y3 ^^^ (comp64 y4 &&& y0))
    (e4 : x4 ^^^ (comp64 x0 &&& x1) = y4 ^^^ (comp64 y0 &&& y1)) :
    x0 = y0 ∧ x1 = y1 ∧ x2 = y2 ∧ x3 = y3 ∧ x4 = y4 := by
  have key : ∀ t, t < 64 →
      (x0.testBit t = y0.testBit t ∧ x1.testBit t = y1.testBit t ∧
       x2.testBit t = y2.testBit t ∧ x3.testBit t = y3.testBit t ∧
       x4.testBit t = y4.testBit t) := by
    intro t ht
    have b0 := congrArg (fun z => z.testBit t) e0
    have b1 := congrArg (fun z => z.testBit t) e1
    have b2 := congrArg (fun z => z.testBit t) e2
    have b3 := congrArg (fun z => z.testBit t) e3
    have b4 := congrArg (fun z => z.testBit t) e4
    simp only [Nat.testBit_xor, Nat.testBit_and, comp64_testBit ht] at b0 b1 b2 b3 b4
    revert b0 b1 b2 b3 b4
    generalize x0.testBit t = p0
    generalize x1.testBit t = p1
    generalize x2.testBit t = p2
    generalize x3.testBit t = p3
    generalize x4.testBit t = p4
    generalize y0.testBit t = q0
    generalize y1.testBit t = q1
    generalize y2.testBit t = q2
    generalize y3.testBit t = q3
    generalize y4.testBit t = q4
    revert p0 p1 p2 p3 p4 q0 q1 q2 q3 q4
    decide
  have high : ∀ (u v : Nat), u < 2 ^ 64 → v < 2 ^ 64 →
      (∀ t, t < 64 → u.testBit t = v.testBit t) → u = v := by
    intro u v hu hv hb
    apply Nat.eq_of_testBit_eq
    intro t
    rcases Nat.lt_or_ge t 64 with ht | ht
    · exact hb t ht
    · rw [testBit_high hu ht, testBit_high hv ht]
  exact ⟨high _ _ hx0 hy0 fun t ht => (key t ht).1,
    high _ _ hx1 hy1 fun t ht => (key t ht).2.1,
    high _ _ hx2 hy2 fun t ht => (key t ht).2.2.1,
    high _ _ hx3 hy3 fun t ht => (key t ht).2.2.2.1,
    high _ _ hx4 hy4 fun t ht => (key t ht).2.2.2.2⟩

theorem chi_inj {s1 s2 : State} (h1 : Valid s1) (h2 : Valid s2)
    (h : chi s1 = chi s2) : s1 = s2 := by
  obtain ⟨a0, a1, a2, a3, a4, a5, a6, a7, a8, a9, a10, a11, a12, a13, a14,
    a15, a16, a17, a18, a19, a20, a21, a22, a23, a24, rfl⟩ := exists25 s1 h1.1
  obtain ⟨b0, b1, b2, b3, b4, b5, b6, b7, b8, b9, b10, b11, b12, b13, b14,
    b15, b16, b17, b18, b19, b20, b21, b22, b23, b24, rfl⟩ := exists25 s2 h2.1
  rw [chi_explicit, chi_explicit] at h
  simp only [List.cons.injEq, and_true] at h
  obtain ⟨e0, e1, e2, e3, e4, e5, e6, e7, e8, e9, e10, e11, e12, e13, e14, e15, e16, e17, e18, e19, e20, e21, e22, e23, e24⟩ := h
  have hxa0 : a0 < 2 ^ 64 := h1.2 a0 (by simp)
  have hxb0 : b0 < 2 ^ 64 := h2.2 b0 (by simp)
  have hxa1 : a1 < 2 ^ 64 := h1.2 a1 (by simp)
  have hxb1 : b1 < 2 ^ 64 := h2.2 b1 (by simp)
  have hxa2 : a2 < 2 ^ 64 := h1.2 a2 (by simp)
  have hxb2 : b2 < 2 ^ 64 := h2.2 b2 (by simp)
  have hxa3 : a3 < 2 ^ 64 := h1.2 a3 (by simp)
  have hxb3 : b3 < 2 ^ 64 := h2.2 b3 (by simp)
  have hxa4 : a4 < 2 ^ 64 := h1.2 a4 (by simp)
  have hxb4 : b4 < 2 ^ 64 := h2.2 b4 (by simp)
  have hxa5 : a5 < 2 ^ 64 := h1.2 a5 (by simp)
  have hxb5 : b5 < 2 ^ 64 := h2.2 b5 (by simp)
  have hxa6 : a6 < 2 ^ 64 := h1.2 a6 (by simp)
  have hxb6 : b6 < 2 ^ 64 := h2.2 b6 (by simp)
  have hxa7 : a7 < 2 ^ 64 := h1.2 a7 (by simp)
  have hxb7 : b7 < 2 ^ 64 := h2.2 b7 (by simp)
  have hxa8 : a8 < 2 ^ 64 := h1.2 a8 (by simp)
  have hxb8 : b8 < 2 ^ 64 := h2.2 b8 (by simp)
  have hxa9 : a9 < 2 ^ 64 := h1.2 a9 (by simp)
  have hxb9 : b9 < 2 ^ 64 := h2.2 b9 (by simp)
  have hxa10 : a10 < 2 ^ 64 := h1.2 a10 (by simp)
  have hxb10 : b10 < 2 ^ 64 := h2.2 b10 (by simp)
  have hxa11 : a11 < 2 ^ 64 := h1.2 a11 (by simp)
  have hxb11 : b11 < 2 ^ 64 := h2.2 b11 (by simp)
  have hxa12 : a12 < 2 ^ 64 := h1.2 a12 (by simp)
  have hxb12 : b12 < 2 ^ 64 := h2.2 b12 (by simp)
  have hxa13 : a13 < 2 ^ 64 := h1.2 a13 (by simp)
  have hxb13 : b13 < 2 ^ 64 := h2.2 b13 (by simp)
  have hxa14 : a14 < 2 ^ 64 := h1.2 a14 (by simp)
  have hxb14 : b14 < 2 ^ 64 := h2.2 b14 (by simp)
  have hxa15 : a15 < 2 ^ 64 := h1.2 a15 (by simp)
  have hxb15 : b15 < 2 ^ 64 := h2.2 b15 (by simp)
  have hxa16 : a16 < 2 ^ 64 := h1.2 a16 (by simp)
  have hxb16 : b16 < 2 ^ 64 := h2.2 b16 (by simp)
  have hxa17 : a17 < 2 ^ 64 := h1.2 a17 (by simp)
  have hxb17 : b17 < 2 ^ 64 := h2.2 b17 (by simp)
  have hxa18 : a18 < 2 ^ 64 := h1.2 a18 (by simp)
  have hxb18 : b18 < 2 ^ 64 := h2.2 b18 (by simp)
  have hxa19 : a19 < 2 ^ 64 := h1.2 a19 (by simp)
  have hxb19 : b19 < 2 ^ 64 := h2.2 b19 (by simp)
  have hxa20 : a20 < 2 ^ 64 := h1.2 a20 (by simp)
  have hxb20 : b20 < 2 ^ 64 := h2.2 b20 (by simp)
  have hxa21 : a21 < 2 ^ 64 := h1.2 a21 (by simp)
  have hxb21 : b21 < 2 ^ 64 := h2.2 b21 (by simp)
  have hxa22 : a22 < 2 ^ 64 := h1.2 a22 (by simp)
  have hxb22 : b22 < 2 ^ 64 := h2.2 b22 (by simp)
  have hxa23 : a23 < 2 ^ 64 := h1.2 a23 (by simp)
  have hxb23 : b23 < 2 ^ 64 := h2.2 b23 (by simp)
  have hxa24 : a24 < 2 ^ 64 := h1.2 a24 (by simp)
  have hxb24 : b24 < 2 ^ 64 := h2.2 b24 (by simp)
  obtain ⟨g0, g1, g2, g3, g4⟩ := chiRow_inj hxa0 hxa1 hxa2 hxa3 hxa4 hxb0 hxb1 hxb2 hxb3 hxb4 e0 e1 e2 e3 e4
  obtain ⟨g5, g6, g7, g8, g9⟩ := chiRow_inj hxa5 hxa6 hxa7 hxa8 hxa9 hxb5 hxb6 hxb7 hxb8 hxb9 e5 e6 e7 e8 e9
  obtain ⟨g10, g11, g12, g13, g14⟩ := chiRow_inj hxa10 hxa11 hxa12 hxa13 hxa14 hxb10 hxb11 hxb12 hxb13 hxb14 e10 e11 e12 e13 e14
  obtain ⟨g15, g16, g17, g18, g19⟩ := chiRow_inj hxa15 hxa16 hxa17 hxa18 hxa19 hxb15 hxb16 hxb17 hxb18 hxb19 e15 e16 e17 e18 e19
  obtain ⟨g20, g21, g22, g23, g24⟩ := chiRow_inj hxa20 hxa21 hxa22 hxa23 hxa24 hxb20 hxb21 hxb22 hxb23 hxb24 e20 e21 e22 e23 e24
  rw [g0, g1, g2, g3, g4, g5, g6, g7, g8, g9, g10, g11, g12, g13, g14, g15, g16, g17, g18, g19, g20, g21, g22, g23, g24]


/-! ## Iota structure and injectivity -/

theorem iota_explicit (a0 a1 a2 a3 a4 a5 a6 a7 a8 a9 a10 a11 a12 a13 a14 a15
    a16 a17 a18 a19 a20 a21 a22 a23 a24 r : Nat) :
    iota [a0, a1, a2, a3, a4, a5, a6, a7, a8, a9, a10, a11, a12, a13, a14,
      a15, a16, a17, a18, a19, a20, a21, a22, a23, a24] r =
    (a0 ^^^ ROUND_CONSTANTS.getD r 0) :: [a1, a2, a3, a4, a5, a6, a7, a8, a9,
      a10, a11, a12, a13, a14, a15, a16, a17, a18, a19, a20, a21, a22, a23, a24] := by
  rfl

theorem iota_length (s : State) (r : Nat) : (iota s r).length = s.length := by
  simp [iota]

theorem iota_inj {s1 s2 : State} (h1 : Valid s1) (h2 : Valid s2) (r : Nat)
    (h : iota s1 r = iota s2 r) : s1 = s2 := by
  obtain ⟨a0, a1, a2, a3, a4, a5, a6, a7, a8, a9, a10, a11, a12, a13, a14,
    a15, a16, a17, a18, a19, a20, a21, a22, a23, a24, rfl⟩ := exists25 s1 h1.1
  obtain ⟨b0, b1, b2, b3, b4, b5, b6, b7, b8, b9, b10, b11, b12, b13, b14,
    b15, b16, b17, b18, b19, b20, b21, b22, b23, b24, rfl⟩ := exists25 s2 h2.1
  rw [iota_explicit, iota_explicit] at h
  simp only [List.cons.injEq, and_true] at h
  obtain ⟨e0, erest⟩ := h
  have g0 : a0 = b0 := xor_cancel_right e0
  rw [g0]
  obtain ⟨g1, g2, g3, g4, g5, g6, g7, g8, g9, g10, g11, g12, g13, g14, g15,
    g16, g17, g18, g19, g20, g21, g22, g23, g24⟩ := erest
  rw [g1, g2, g3, g4, g5, g6, g7, g8, g9, g10, g11, g12, g13, g14, g15,
    g16, g17, g18, g19, g20, g21, g22, g23, g24]

/-! ## Validity (length and lane bounds) preservation -/

theorem theta_valid {s : State} (hs : ∀ x ∈ s, x < 2 ^ 64) : Valid (theta s) := by
  refine ⟨theta_length s, ?_⟩
  intro x hx
  unfold theta at hx
  simp only [List.mem_map, List.mem_range] at hx
  obtain ⟨k, hk, rfl⟩ := hx
  apply Nat.xor_lt_two_pow (getD_lt hs _)
  apply Nat.xor_lt_two_pow
  · apply getD_lt
    intro y hy
    simp only [List.mem_map, List.mem_range] at hy
    obtain ⟨i, hi, rfl⟩ := hy
    exact Nat.xor_lt_two_pow (Nat.xor_lt_two_pow (Nat.xor_lt_two_pow
      (Nat.xor_lt_two_pow (getD_lt hs _) (getD_lt hs _)) (getD_lt hs _))
      (getD_lt hs _)) (getD_lt hs _)
  · exact rotl_lt _ _

theorem rhoPi_valid {s : State} (h : Valid s) : Valid (rhoPi s) := by
  obtain ⟨a0, a1, a2, a3, a4, a5, a6, a7, a8, a9, a10, a11, a12, a13, a14,
    a15, a16, a17, a18, a19, a20, a21, a22, a23, a24, rfl⟩ := exists25 s h.1
  rw [rhoPi_explicit]
  refine ⟨rfl, ?_⟩
  intro x hx
  simp only [List.mem_cons, List.not_mem_nil, or_false] at hx
  rcases hx with rfl | rfl | rfl | rfl | rfl | rfl | rfl | rfl | rfl | rfl | rfl |
    rfl | rfl | rfl | rfl | rfl | rfl | rfl | rfl | rfl | rfl | rfl | rfl | rfl | rfl
  · exact h.2 _ (by simp)
  all_goals exact rotl_lt _ _

theorem chi_valid {s : State} (hs : ∀ x ∈ s, x < 2 ^ 64) : Valid (chi s) := by
  refine ⟨chi_length s, ?_⟩
  intro x hx
  unfold chi at hx
  simp only [List.mem_map, List.mem_range] at hx
  obtain ⟨k, hk, rfl⟩ := hx
  apply Nat.xor_lt_two_pow (getD_lt hs _)
  exact Nat.lt_of_le_of_lt Nat.and_le_left (comp64_lt _ (getD_lt hs _))

theorem ROUND_CONSTANTS_bounded : ∀ x ∈ ROUND_CONSTANTS, x < 2 ^ 64 := by
  decide

theorem iota_valid {s : State} (h : Valid s) (r : Nat) : Valid (iota s r) := by
  obtain ⟨a0, a1, a2, a3, a4, a5, a6, a7, a8, a9, a10, a11, a12, a13, a14,
    a15, a16, a17, a18, a19, a20, a21, a22, a23, a24, rfl⟩ := exists25 s h.1
  rw [iota_explicit]
  refine ⟨rfl, ?_⟩
  intro x hx
  simp only [List.mem_cons, List.not_mem_nil, or_false] at hx
  rcases hx with rfl | hx
  · exact Nat.xor_lt_two_pow (h.2 a0 (by simp)) (getD_lt ROUND_CONSTANTS_bounded r)
  · exact h.2 x (by simp [hx])

theorem round_valid {s : State} (h : Valid s) (r : Nat) : Valid (round s r) :=
  iota_valid (chi_valid (rhoPi_valid (theta_valid h.2)).2) r

theorem round_inj {s1 s2 : State} (h1 : Valid s1) (h2 : Valid s2) (r : Nat)
    (h : round s1 r = round s2 r) : s1 = s2 := by
  unfold round at h
  have v1 := chi_valid (rhoPi_valid (theta_valid h1.2)).2
  have v2 := chi_valid (rhoPi_valid (theta_valid h2.2)).2
  have hc := iota_inj v1 v2 r h
  have hrp := chi_inj (rhoPi_valid (theta_valid h1.2)) (rhoPi_valid (theta_valid h2.2)) hc
  have hth := rhoPi_inj (theta_valid h1.2) (theta_valid h2.2) hrp
  exact theta_inj h1 h2 hth

theorem foldl_round_valid {s : State} (h : Valid s) (l : List Nat) :
    Valid (l.foldl round s) := by
  induction l generalizing s with
  | nil => exact h
  | cons r rs ih => exact ih (round_valid h r)

theorem keccak_f_valid {s : State} (h : Valid s) : Valid (keccak_f s) :=
  foldl_round_valid h _

theorem foldl_round_inj {s1 s2 : State} (h1 : Valid s1) (h2 : Valid s2)
    (l : List Nat) (h : l.foldl round s1 = l.foldl round s2) : s1 = s2 := by
  induction l generalizing s1 s2 with
  | nil => exact h
  | cons r rs ih =>
    exact round_inj h1 h2 r (ih (round_valid h1 r) (round_valid h2 r) h)

theorem keccak_f_inj {s1 s2 : State} (h1 : Valid s1) (h2 : Valid s2)
    (h : keccak_f s1 = keccak_f s2) : s1 = s2 :=
  foldl_round_inj h1 h2 _ h

/-! ## Surjectivity via finiteness of the valid-state space -/

theorem valid_state_finite : Finite {s : State // Valid s} := by
  apply Finite.of_injective
    (fun (s : {s : State // Valid s}) (i : Fin 25) =>
      (⟨s.val.getD i.val 0, getD_lt s.prop.2 _⟩ : Fin (2 ^ 64)))
  intro s t hst
  apply Subtype.ext
  apply List.ext_getElem (by rw [s.prop.1, t.prop.1])
  intro k hk1 hk2
  have hk : k < 25 := by rw [s.prop.1] at hk1; exact hk1
  have h1 := congrArg Fin.val (congrFun hst ⟨k, hk⟩)
  simp only at h1
  rwa [List.getD_eq_getElem _ _ hk1, List.getD_eq_getElem _ _ hk2] at h1

theorem round_surj (r : Nat) {t : State} (ht : Valid t) :
    ∃ s, Valid s ∧ round s r = t := by
  have : Finite {s : State // Valid s} := valid_state_finite
  have hinj : Function.Injective
      (fun (s : {s : State // Valid s}) =>
        (⟨round s.val r, round_valid s.prop r⟩ : {s : State // Valid s})) := by
    intro a b hab
    exact Subtype.ext (round_inj a.prop b.prop r (congrArg Subtype.val hab))
  obtain ⟨s, hs⟩ := Finite.injective_iff_surjective.mp hinj ⟨t, ht⟩
  exact ⟨s.val, s.prop, congrArg Subtype.val hs⟩

theorem keccak_f_surj {t : State} (ht : Valid t) :
    ∃ s, Valid s ∧ keccak_f s = t := by
  have : Finite {s : State // Valid s} := valid_state_finite
  have hinj : Function.Injective
      (fun (s : {s : State // Valid s}) =>
        (⟨keccak_f s.val, keccak_f_valid s.prop⟩ : {s : State // Valid s})) := by
    intro a b hab
    exact Subtype.ext (keccak_f_inj a.prop b.prop (congrArg Subtype.val hab))
  obtain ⟨s, hs⟩ := Finite.injective_iff_surjective.mp hinj ⟨t, ht⟩
  exact ⟨s.val, s.prop, congrArg Subtype.val hs⟩

/-! ## The permutation equals the reference Keccak-f[1600] -/

theorem theta_eq_spec (s : State) : theta s = specTheta s := rfl

theorem chi_eq_spec (s : State) : chi s = specChi s := rfl

theorem iota_eq_spec (s : State) (r : Nat) : iota s r = specIota s r := rfl

theorem rhoOffsets_eq_walk : rhoOffsets = rhoWalkOffsets := by decide

theorem round_eq_spec (a : State) (r : Nat) : round a r = specRound a r := by
  unfold round specRound
  rw [rhoPi_eq_spec (theta_length a)]
  rfl

theorem foldl_round_eq_spec (l : List Nat) : ∀ (s : State),
    l.foldl round s = l.foldl specRound s := by
  induction l with
  | nil => intro s; rw [List.foldl_nil, List.foldl_nil]
  | cons x xs ih =>
    intro s
    rw [List.foldl_cons, List.foldl_cons, round_eq_spec]
    exact ih _

theorem keccak_f_eq_spec (a : State) : keccak_f a = specKeccakF a :=
  foldl_round_eq_spec _ a

/-! ## List access helpers for the driver layer -/

theorem getD_set_self {l : List Nat} {i : Nat} (v : Nat) (h : i < l.length) :
    (l.set i v).getD i 0 = v := by
  simp [List.getD, List.getElem?_set_self, h]

theorem getD_set_ne {l : List Nat} {i j : Nat} (v : Nat) (h : i ≠ j) :
    (l.set i v).getD j 0 = l.getD j 0 := by
  simp [List.getD, List.getElem?_set_ne h]

theorem getD_append_left {l1 l2 : List Nat} {j : Nat} (h : j < l1.length) :
    (l1 ++ l2).getD j 0 = l1.getD j 0 := by
  simp [List.getD, List.getElem?_append_left h]

theorem getD_append_right {l1 l2 : List Nat} {j : Nat} (h : l1.length ≤ j) :
    (l1 ++ l2).getD j 0 = l2.getD (j - l1.length) 0 := by
  simp [List.getD, List.getElem?_append_right h]

theorem getD_replicate {n j v : Nat} (h : j < n) :
    (List.replicate n v).getD j 0 = v := by
  simp [List.getD, List.getElem?_replicate, h]

/-! ## The lane codec's frame: only the rate lanes are touched -/

theorem xorLanesAux_length (buf l : List Nat) (a : State) :
    (xorLanesAux buf l a).length = a.length := by
  induction l generalizing a with
  | nil => rfl
  | cons i is ih => simp [xorLanesAux, ih]

theorem xor_lanes_length (a : State) (buf : List Nat) :
    (xor_lanes a buf).length = a.length :=
  xorLanesAux_length _ _ _

theorem xorLanesAux_getD_notmem (buf l : List Nat) (a : State) {j : Nat}
    (hj : j ∉ l) : (xorLanesAux buf l a).getD j 0 = a.getD j 0 := by
  induction l generalizing a with
  | nil => rfl
  | cons i is ih =>
    show (xorLanesAux buf is _).getD j 0 = _
    have hij : i ≠ j := by
      rintro rfl
      exact hj (List.mem_cons_self i is)
    rw [ih _ (fun hmem => hj (List.mem_cons_of_mem i hmem)), getD_set_ne _ hij]

theorem xorLanesAux_getD_mem (buf : List Nat) {l : List Nat} {a : State} {j : Nat}
    (hnd : l.Nodup) (hj : j ∈ l) (hlen : j < a.length) :
    (xorLanesAux buf l a).getD j 0 = a.getD j 0 ^^^ laneFromBytes buf (8 * j) := by
  induction l generalizing a with
  | nil => cases hj
  | cons i is ih =>
    rcases List.mem_cons.mp hj with rfl | hmem
    · show (xorLanesAux buf is _).getD j 0 = _
      rw [xorLanesAux_getD_notmem _ _ _ (List.nodup_cons.mp hnd).1,
        getD_set_self _ hlen]
    · have hij : i ≠ j := by
        rintro rfl
        exact (List.nodup_cons.mp hnd).1 hmem
      show (xorLanesAux buf is _).getD j 0 = _
      rw [ih (List.nodup_cons.mp hnd).2 hmem (by simpa using hlen),
        getD_set_ne _ hij]

theorem xor_lanes_getD_rate {a : State} (buf : List Nat) {j : Nat}
    (hj : j < R_BYTES / 8) (hlen : j < a.length) :
    (xor_lanes a buf).getD j 0 = a.getD j 0 ^^^ laneFromBytes buf (8 * j) := by
  unfold xor_lanes
  exact xorLanesAux_getD_mem buf (List.nodup_range _) (by simpa using hj) hlen

theorem xor_lanes_getD_capacity (a : State) (buf : List Nat) {j : Nat}
    (hj : R_BYTES / 8 ≤ j) :
    (xor_lanes a buf).getD j 0 = a.getD j 0 := by
  unfold xor_lanes
  apply xorLanesAux_getD_notmem
  simp only [List.mem_range]
  omega

/-! ## The final-block padding, characterized -/

theorem copyFold_length (chunk : List Nat) (l : List Nat) (z : List Nat) :
    (l.foldl (fun acc i => acc.set i (chunk.getD i 0)) z).length = z.length := by
  induction l generalizing z with
  | nil => rfl
  | cons i is ih => rw [List.foldl_cons, ih, List.length_set]

theorem copyFold_getD (chunk z : List Nat) (n : Nat) (hn : n ≤ z.length) (j : Nat) :
    ((List.range n).foldl (fun acc i => acc.set i (chunk.getD i 0)) z).getD j 0 =
      if j < n then chunk.getD j 0 else z.getD j 0 := by
  induction n with
  | zero => simp
  | succ n ih =>
    rw [List.range_succ, List.foldl_append]
    show (((List.range n).foldl _ z).set n (chunk.getD n 0)).getD j 0 = _
    by_cases hj : j = n
    · subst hj
      rw [getD_set_self _ (by rw [copyFold_length]; omega)]
      simp
    · rw [getD_set_ne _ (Ne.symm hj), ih (by omega)]
      by_cases h2 : j < n
      · rw [if_pos h2, if_pos (by omega)]
      · rw [if_neg h2, if_neg (by omega)]

theorem padBlock_length (chunk : List Nat) : (padBlock chunk).length = R_BYTES := by
  show ((((List.range chunk.length).foldl
      (fun acc i => acc.set i (chunk.getD i 0))
      (List.replicate R_BYTES 0)).set chunk.length 1).set (R_BYTES - 1) _).length = _
  rw [List.length_set, List.length_set, copyFold_length, List.length_replicate]

theorem padBlock_getD (chunk : List Nat) (hc : chunk.length < R_BYTES) (j : Nat) :
    (padBlock chunk).getD j 0 =
      if j = R_BYTES - 1 then (if chunk.length = R_BYTES - 1 then 0x81 else 0x80)
      else if j < chunk.length then chunk.getD j 0
      else if j = chunk.length then 1 else 0 := by
  have hR : R_BYTES = 72 := rfl
  show ((((List.range chunk.length).foldl
      (fun acc i => acc.set i (chunk.getD i 0))
      (List.replicate R_BYTES 0)).set chunk.length 1).set (R_BYTES - 1)
      ((((List.range chunk.length).foldl
        (fun acc i => acc.set i (chunk.getD i 0))
        (List.replicate R_BYTES 0)).set chunk.length 1).getD (R_BYTES - 1) 0
        ||| 0x80)).getD j 0 = _
  generalize hgen : (List.range chunk.length).foldl
    (fun acc i => acc.set i (chunk.getD i 0)) (List.replicate R_BYTES 0) = l1
  have hlen1 : l1.length = R_BYTES := by
    rw [← hgen, copyFold_length, List.length_replicate]
  have hgd : ∀ i, l1.getD i 0 = if i < chunk.length then chunk.getD i 0 else 0 := by
    intro i
    rw [← hgen, copyFold_getD _ _ _ (by simp [List.length_replicate]; omega)]
    by_cases h2 : i < chunk.length
    · rw [if_pos h2, if_pos h2]
    · rw [if_neg h2, if_neg h2]
      rcases Nat.lt_or_ge i R_BYTES with h3 | h3
      · exact getD_replicate h3
      · exact List.getD_eq_default _ _ (by simp [List.length_replicate]; omega)
  by_cases hj : j = R_BYTES - 1
  · subst hj
    rw [getD_set_self _ (by rw [List.length_set, hlen1]; omega), if_pos rfl]
    by_cases hcl : chunk.length = R_BYTES - 1
    · rw [if_pos hcl, hcl, getD_set_self _ (by rw [hlen1]; omega)]
      rfl
    · rw [if_neg hcl, getD_set_ne _ hcl, hgd, if_neg (by omega)]
      rfl
  · rw [getD_set_ne _ (fun h => hj h.symm), if_neg hj]
    by_cases hjc : j = chunk.length
    · subst hjc
      rw [getD_set_self _ (by rw [hlen1]; omega), if_neg (by omega), if_pos rfl]
    · rw [getD_set_ne _ (fun h => hjc h.symm), hgd, if_neg hjc]

theorem specPad_length {chunk : List Nat} (hc : chunk.length ≤ R_BYTES - 2) :
    (specPad chunk).length = R_BYTES := by
  have hR : R_BYTES = 72 := rfl
  simp [specPad]
  omega

theorem specPad_getD {chunk : List Nat} (hc : chunk.length ≤ R_BYTES - 2) (j : Nat) :
    (specPad chunk).getD j 0 =
      if j = R_BYTES - 1 then 0x80
      else if j < chunk.length then chunk.getD j 0
      else if j = chunk.length then 1 else 0 := by
  have hR : R_BYTES = 72 := rfl
  unfold specPad
  by_cases h1 : j < chunk.length
  · rw [getD_append_left h1, if_neg (by omega), if_pos h1]
  · rw [getD_append_right (by omega)]
    by_cases h2 : j = chunk.length
    · have e : j - chunk.length = 0 := by omega
      rw [e, List.getD_cons_zero, if_neg (by omega), if_neg h1, if_pos h2]
    · have e : j - chunk.length = (j - chunk.length - 1) + 1 := by omega
      rw [e, List.getD_cons_succ, if_neg h1, if_neg h2]
      by_cases h3 : j = R_BYTES - 1
      · rw [getD_append_right (by simp [List.length_replicate]; omega), if_pos h3]
        have e2 : j - chunk.length - 1 -
            (List.replicate (R_BYTES - 2 - chunk.length) 0).length = 0 := by
          simp [List.length_replicate]
          omega
        rw [e2, List.getD_cons_zero]
      · rw [if_neg h3]
        rcases Nat.lt_or_ge (j - chunk.length - 1) (R_BYTES - 2 - chunk.length) with h4 | h4
        · rw [getD_append_left (by simp [List.length_replicate]; omega), getD_replicate h4]
        · rw [getD_append_right (by simp [List.length_replicate]; omega)]
          apply List.getD_eq_default
          simp [List.length_replicate]
          omega

theorem padBlock_eq_specPad {chunk : List Nat} (hc : chunk.length ≤ R_BYTES - 2) :
    padBlock chunk = specPad chunk := by
  apply List.ext_getElem (by rw [padBlock_length, specPad_length hc])
  intro j h1 h2
  rw [← List.getD_eq_getElem _ 0 h1, ← List.getD_eq_getElem _ 0 h2,
    padBlock_getD chunk (by have : R_BYTES = 72 := rfl; omega) j, specPad_getD hc j]
  have hR : R_BYTES = 72 := rfl
  by_cases hj : j = R_BYTES - 1
  · rw [if_pos hj, if_pos hj, if_neg (by omega)]
  · rw [if_neg hj, if_neg hj]

theorem padBlock_last {chunk : List Nat} (hc : chunk.length = R_BYTES - 1) :
    padBlock chunk = chunk ++ [0x81] := by
  have hR : R_BYTES = 72 := rfl
  apply List.ext_getElem (by rw [padBlock_length]; simp; omega)
  intro j h1 h2
  rw [← List.getD_eq_getElem _ 0 h1, ← List.getD_eq_getElem _ 0 h2,
    padBlock_getD chunk (by omega) j]
  by_cases hj : j = R_BYTES - 1
  · rw [if_pos hj, if_pos hc, getD_append_right (by omega)]
    have e : j - chunk.length = 0 := by omega
    rw [e, List.getD_cons_zero]
  · have hjc : j < chunk.length := by rw [padBlock_length] at h1; omega
    rw [if_neg hj, if_pos hjc, getD_append_left hjc]

/-! ## The sponge driver's final block -/

theorem loop_final (st : State) {chunk : List Nat} (rest : List ReadResult)
    (h : chunk.length < R_BYTES) :
    keccak512Loop st (Except.ok chunk :: rest) =
      Except.ok (keccak_f (xor_lanes st (padBlock chunk))) := by
  simp [keccak512Loop, h]

theorem loop_full (st : State) {buf : List Nat} (rest : List ReadResult)
    (h : ¬ buf.length < R_BYTES) :
    keccak512Loop st (Except.ok buf :: rest) =
      keccak512Loop (keccak_f (xor_lanes st buf)) rest := by
  simp [keccak512Loop, h]

/-! ## The read sequence of an in-memory stream -/

theorem R_BYTES_pos : 0 < R_BYTES := by decide

theorem absorbBlock_def (st : State) (b : List Nat) :
    absorbBlock st b = keccak_f (xor_lanes st b) := rfl

theorem sliceReads_small {inp : List Nat} (h : inp.length < R_BYTES) :
    sliceReads inp = [Except.ok inp] := by
  unfold sliceReads
  rw [Nat.div_eq_of_lt h]
  simp

theorem sliceReads_step {inp : List Nat} (h : R_BYTES ≤ inp.length) :
    sliceReads inp =
      Except.ok (inp.take R_BYTES) :: sliceReads (inp.drop R_BYTES) := by
  unfold sliceReads
  rw [Nat.div_eq_sub_div R_BYTES_pos h, List.length_drop, List.range_succ_eq_map,
    List.map_cons, List.map_map, List.cons_append, Nat.zero_mul, List.drop_zero]
  have emap : ∀ i, i ∈ List.range ((inp.length - R_BYTES) / R_BYTES) →
      Except.ok (ε := Nat) ((inp.drop (Nat.succ i * R_BYTES)).take R_BYTES) =
      Except.ok (((inp.drop R_BYTES).drop (i * R_BYTES)).take R_BYTES) := by
    intro i _
    rw [List.drop_drop]
    have e : Nat.succ i * R_BYTES = R_BYTES + i * R_BYTES := by
      rw [Nat.succ_mul, Nat.add_comm]
    rw [e]
  simp only [Function.comp_def]
  rw [List.map_congr_left emap, List.drop_drop]
  have e2 : ((inp.length - R_BYTES) / R_BYTES + 1) * R_BYTES =
      R_BYTES + (inp.length - R_BYTES) / R_BYTES * R_BYTES := by
    rw [Nat.succ_mul, Nat.add_comm]
  rw [e2]

theorem fullChunks_small {inp : List Nat} (h : inp.length < R_BYTES) :
    fullChunks inp = [] := by
  unfold fullChunks
  rw [Nat.div_eq_of_lt h]
  rfl

theorem fullChunks_step {inp : List Nat} (h : R_BYTES ≤ inp.length) :
    fullChunks inp = inp.take R_BYTES :: fullChunks (inp.drop R_BYTES) := by
  unfold fullChunks
  rw [Nat.div_eq_sub_div R_BYTES_pos h, List.length_drop, List.range_succ_eq_map,
    List.map_cons, List.map_map, Nat.zero_mul, List.drop_zero]
  have emap : ∀ i, i ∈ List.range ((inp.length - R_BYTES) / R_BYTES) →
      (inp.drop (Nat.succ i * R_BYTES)).take R_BYTES =
      ((inp.drop R_BYTES).drop (i * R_BYTES)).take R_BYTES := by
    intro i _
    rw [List.drop_drop]
    have e : Nat.succ i * R_BYTES = R_BYTES + i * R_BYTES := by
      rw [Nat.succ_mul, Nat.add_comm]
    rw [e]
  simp only [Function.comp_def]
  rw [List.map_congr_left emap]

/-! ## Exact-multiple inputs force one extra pure-padding block -/

theorem loop_multiple : ∀ (n : Nat) (inp : List Nat) (st : State),
    inp.length = n * R_BYTES →
    keccak512Loop st (sliceReads inp) =
      Except.ok ((fullChunks inp ++ [padBlock []]).foldl absorbBlock st) ∧
    (fullChunks inp).length = n := by
  intro n
  induction n with
  | zero =>
    intro inp st h
    have hnil : inp = [] := List.eq_nil_of_length_eq_zero (by omega)
    subst hnil
    refine ⟨?_, ?_⟩
    · rw [sliceReads_small (by exact R_BYTES_pos), loop_final st _ (by exact R_BYTES_pos),
        fullChunks_small (by exact R_BYTES_pos), List.nil_append, List.foldl_cons,
        List.foldl_nil, absorbBlock_def]
    · rw [fullChunks_small (by exact R_BYTES_pos)]
      rfl
  | succ n ih =>
    intro inp st h
    have hR : R_BYTES = 72 := rfl
    have hlen : R_BYTES ≤ inp.length := by rw [h, hR]; omega
    have htake : (inp.take R_BYTES).length = R_BYTES := by
      rw [List.length_take]
      omega
    obtain ⟨h1, h2⟩ := ih (inp.drop R_BYTES)
      (keccak_f (xor_lanes st (inp.take R_BYTES)))
      (by rw [List.length_drop, h, hR]; omega)
    refine ⟨?_, ?_⟩
    · rw [sliceReads_step hlen, loop_full st _ (by rw [htake]; omega), h1,
        fullChunks_step hlen, List.cons_append, List.foldl_cons, absorbBlock_def]
    · rw [fullChunks_step hlen, List.length_cons, h2]

/-! ## The absorb loop on an error-free in-memory stream never fails -/

theorem loop_sliceReads_ok (inp : List Nat) (st : State) :
    ∃ st2, keccak512Loop st (sliceReads inp) = Except.ok st2 := by
  generalize hn : inp.length = n
  induction n using Nat.strong_induction_on generalizing inp st with
  | _ n ihn =>
    rcases Nat.lt_or_ge inp.length R_BYTES with h | h
    · rw [sliceReads_small h, loop_final st _ h]
      exact ⟨_, rfl⟩
    · have htake : (inp.take R_BYTES).length = R_BYTES := by
        rw [List.length_take]
        omega
      rw [sliceReads_step h, loop_full st _ (by rw [htake]; omega)]
      exact ihn (inp.drop R_BYTES).length (by rw [List.length_drop]; have : 0 < R_BYTES := R_BYTES_pos; omega)
        _ _ rfl

/-! ## Error propagation -/

theorem loop_error (e : Nat) : ∀ (pre rest : List ReadResult) (st : State),
    (∀ b ∈ pre, ∃ bs, b = Except.ok bs ∧ bs.length = R_BYTES) →
    keccak512Loop st (pre ++ Except.error e :: rest) = Except.error e := by
  intro pre
  induction pre with
  | nil => intro rest st _; rfl
  | cons b bs ih =>
    intro rest st hp
    obtain ⟨bsv, hb, hbl⟩ := hp b (List.mem_cons_self _ _)
    subst hb
    rw [List.cons_append, loop_full st _ (by rw [hbl]; omega)]
    exact ih rest _ (fun x hx => hp x (List.mem_cons_of_mem _ hx))

theorem method_error {reads : List ReadResult} {e : Nat}
    (h : keccak512Loop state0 reads = Except.error e) (d : List Nat) :
    keccak512Method d reads = (Except.error e, d) := by
  unfold keccak512Method
  rw [h]

theorem method_ok {reads : List ReadResult} {st2 : State}
    (h : keccak512Loop state0 reads = Except.ok st2) (d : List Nat) :
    keccak512Method d reads = (Except.ok (), extract st2) := by
  unfold keccak512Method
  rw [h]

theorem with512_error {reads : List ReadResult} {e : Nat}
    (h : keccak512Loop state0 reads = Except.error e) :
    with_512 reads = Except.error e := by
  unfold with_512
  rw [method_error h]

/-! ## Output length -/

theorem laneToBytes_length (x : Lane) : (laneToBytes x).length = 8 := by
  simp [laneToBytes]

theorem extract_length (st : State) : (extract st).length = OUTPUT_LEN := by
  unfold extract
  rw [List.length_flatten]
  simp only [List.map_map, Function.comp_def, laneToBytes_length]
  decide

theorem keccak_512_length (inp : List Nat) : (keccak_512 inp).length = OUTPUT_LEN := by
  obtain ⟨st2, h⟩ := loop_sliceReads_ok inp state0
  unfold keccak_512
  rw [h]
  exact extract_length st2

/-! ## Hex rendering -/

theorem byteHex_length (b : Nat) : (byteHex b).length = 2 := rfl

theorem lowerHex_length (d : List Nat) : (lowerHex d).length = 2 * d.length := by
  show ((d.map byteHex).flatten).length = 2 * d.length
  rw [List.length_flatten]
  induction d with
  | nil => rfl
  | cons b bs ih =>
    rw [List.map_cons, List.map_cons, List.sum_cons, byteHex_length, ih,
      List.length_cons]
    omega

/-! ## The checked accesses all succeed -/

theorem getChecked_eq {l : List Nat} {i : Nat} (h : i < l.length) :
    getChecked l i = some (l.getD i 0) := by
  unfold getChecked
  rw [if_pos h]

theorem setChecked_eq {l : List Nat} {i : Nat} (v : Nat) (h : i < l.length) :
    setChecked l i v = some (l.set i v) := by
  unfold setChecked
  rw [if_pos h]

theorem copyFoldM_eq (chunk : List Nat) : ∀ (l : List Nat) (z : List Nat),
    (∀ i ∈ l, i < chunk.length ∧ i < z.length) →
    l.foldlM (fun acc i => do setChecked acc i (← getChecked chunk i)) z =
      some (l.foldl (fun acc i => acc.set i (chunk.getD i 0)) z) := by
  intro l
  induction l with
  | nil => intro z _; rfl
  | cons i is ih =>
    intro z h
    obtain ⟨h1, h2⟩ := h i (List.mem_cons_self _ _)
    rw [List.foldlM_cons, List.foldl_cons]
    simp only [getChecked_eq h1, setChecked_eq _ h2, Option.bind_eq_bind,
      Option.some_bind]
    exact ih (z.set i (chunk.getD i 0)) (fun j hj =>
      ⟨(h j (List.mem_cons_of_mem _ hj)).1,
        by rw [List.length_set]; exact (h j (List.mem_cons_of_mem _ hj)).2⟩)

theorem laneFromBytesChecked_eq {buf : List Nat} {off : Nat}
    (h : off + 8 ≤ buf.length) :
    laneFromBytesChecked buf off = some (laneFromBytes buf off) := by
  unfold laneFromBytesChecked laneFromBytes
  have gen : ∀ (l : List Nat) (acc : Nat), (∀ k ∈ l, off + k < buf.length) →
      l.foldlM (fun acc k => do
        pure (acc + (← getChecked buf (off + k)) * 2 ^ (8 * k))) acc =
      some (l.foldl (fun acc k => acc + buf.getD (off + k) 0 * 2 ^ (8 * k)) acc) := by
    intro l
    induction l with
    | nil => intro acc _; rfl
    | cons k ks ih =>
      intro acc hk
      rw [List.foldlM_cons, List.foldl_cons]
      simp only [getChecked_eq (hk k (List.mem_cons_self _ _)), Option.bind_eq_bind,
        Option.some_bind, Option.pure_def]
      exact ih _ (fun j hj => hk j (List.mem_cons_of_mem _ hj))
  apply gen
  intro k hk
  simp only [List.mem_range] at hk
  omega

theorem xorLanesM_eq (buf : List Nat) : ∀ (l : List Nat) (a : State),
    (∀ i ∈ l, i < a.length ∧ 8 * i + 8 ≤ buf.length) →
    l.foldlM (fun st i => do
      setChecked st i ((← getChecked st i) ^^^ (← laneFromBytesChecked buf (8 * i)))) a =
      some (xorLanesAux buf l a) := by
  intro l
  induction l with
  | nil => intro a _; rfl
  | cons i is ih =>
    intro a h
    obtain ⟨h1, h2⟩ := h i (List.mem_cons_self _ _)
    rw [List.foldlM_cons]
    simp only [getChecked_eq h1,
      laneFromBytesChecked_eq (show 8 * i + 8 ≤ buf.length by omega),
      setChecked_eq _ h1, Option.bind_eq_bind, Option.some_bind]
    show _ = some (xorLanesAux buf (i :: is) a)
    rw [show xorLanesAux buf (i :: is) a =
      xorLanesAux buf is (a.set i (a.getD i 0 ^^^ laneFromBytes buf (8 * i))) from rfl]
    exact ih _ (fun j hj =>
      ⟨by rw [List.length_set]; exact (h j (List.mem_cons_of_mem _ hj)).1,
        (h j (List.mem_cons_of_mem _ hj)).2⟩)

theorem xorLanesChecked_eq {a : State} {buf : List Nat} (ha : a.length = 25)
    (hbuf : R_BYTES ≤ buf.length) :
    xorLanesChecked a buf = some (xor_lanes a buf) := by
  unfold xorLanesChecked xor_lanes
  apply xorLanesM_eq
  intro i hi
  simp only [List.mem_range] at hi
  have hR : R_BYTES = 72 := rfl
  constructor
  · omega
  · have : R_BYTES >>> 3 = 9 := rfl
    omega

theorem padBlockChecked_eq {chunk : List Nat} (hc : chunk.length < R_BYTES) :
    padBlockChecked chunk = some (padBlock chunk) := by
  have hR : R_BYTES = 72 := rfl
  unfold padBlockChecked
  rw [copyFoldM_eq chunk _ _ (fun i hi => by
    simp only [List.mem_range] at hi
    exact ⟨hi, by rw [List.length_replicate]; omega⟩)]
  simp only [Option.bind_eq_bind, Option.some_bind,
    setChecked_eq _ (show chunk.length < (List.foldl (fun acc i => acc.set i (chunk.getD i 0))
      (List.replicate R_BYTES 0) (List.range chunk.length)).length by
        rw [copyFold_length, List.length_replicate]; omega),
    getChecked_eq (show R_BYTES - 1 < ((List.foldl (fun acc i => acc.set i (chunk.getD i 0))
      (List.replicate R_BYTES 0) (List.range chunk.length)).set chunk.length 1).length by
        rw [List.length_set, copyFold_length, List.length_replicate]; omega),
    setChecked_eq _ (show R_BYTES - 1 < ((List.foldl (fun acc i => acc.set i (chunk.getD i 0))
      (List.replicate R_BYTES 0) (List.range chunk.length)).set chunk.length 1).length by
        rw [List.length_set, copyFold_length, List.length_replicate]; omega)]
  rfl

/-! # The claims -/

set_option maxRecDepth 100000 in
/-- C1: for the 512-bit variant, the digest of the empty input stream
succeeds and renders in lowercase hex as the known answer vector. -/
theorem C1_empty_input_digest :
    lowerHex (keccak_512 []) =
      "0eab42de4c3ceb9235fc91acffe746b29c29a8c366b7c60e4e67c466f36a4304c00fa9caf9d87976ba469bcbe06713b435f091ef2769fb160cdab33d3670680e" := by
  decide

/-- C2: the 512-bit variant has a 64-byte digest with rate `R_BYTES = 72`,
the 256-bit variant (modelled from the spec, its engine not being under
`src/`) a 32-byte digest with rate 136, and in both cases the rate equals
200 minus twice the output length; every computed 512-bit digest has
exactly `OUTPUT_LEN` bytes. -/
theorem C2_two_variants :
    OUTPUT_LEN = 64 ∧ 8 * OUTPUT_LEN = 512 ∧ R_BYTES = 72 ∧
    R_BYTES = 200 - 2 * OUTPUT_LEN ∧
    OUTPUT_LEN_256 = 32 ∧ 8 * OUTPUT_LEN_256 = 256 ∧ R_BYTES_256 = 136 ∧
    R_BYTES_256 = 200 - 2 * OUTPUT_LEN_256 ∧
    ∀ inp : List Nat, (keccak_512 inp).length = OUTPUT_LEN :=
  ⟨rfl, rfl, rfl, rfl, rfl, rfl, rfl, rfl, keccak_512_length⟩

/-- C3: the permutation core applies exactly 24 rounds, each round is
theta, then the fused rho+pi walk, then chi, then iota in strict order,
and the whole permutation coincides with the reference Keccak-f[1600]
(classical matrix formulation, with the ρ offsets generated by the
reference triangular-number walk). -/
theorem C3_round_structure_matches_reference :
    (∀ (a : State) (r : Nat), round a r = iota (chi (rhoPi (theta a))) r) ∧
    (∀ a : State, keccak_f a = (List.range 24).foldl round a) ∧
    rhoOffsets = rhoWalkOffsets ∧
    (∀ a : State, keccak_f a = specKeccakF a) :=
  ⟨fun _ _ => rfl, fun _ => rfl, rhoOffsets_eq_walk, keccak_f_eq_spec⟩

/-- C4: every round (any round index below 24) is a bijection on the
1600-bit state — injective, and every well-formed state has a well-formed
preimage — and hence so is the full 24-round permutation. -/
theorem C4_round_bijective :
    (∀ r, r < 24 → ∀ s1 s2 : State, Valid s1 → Valid s2 →
      round s1 r = round s2 r → s1 = s2) ∧
    (∀ r, r < 24 → ∀ t : State, Valid t → ∃ s, Valid s ∧ round s r = t) ∧
    (∀ s1 s2 : State, Valid s1 → Valid s2 → keccak_f s1 = keccak_f s2 → s1 = s2) ∧
    (∀ t : State, Valid t → ∃ s, Valid s ∧ keccak_f s = t) :=
  ⟨fun r _ _ _ h1 h2 h => round_inj h1 h2 r h,
   fun r _ _ ht => round_surj r ht,
   fun _ _ h1 h2 h => keccak_f_inj h1 h2 h,
   fun _ ht => keccak_f_surj ht⟩

theorem C4_witness :
    List.replicate 25 (0 : Nat) = List.replicate 25 (0 : Nat) ∧
    (∃ s, Valid s ∧ round s 0 = List.replicate 25 (0 : Nat)) ∧
    (∃ s, Valid s ∧ keccak_f s = List.replicate 25 (0 : Nat)) := by
  have hv : Valid (List.replicate 25 (0 : Nat)) := by
    constructor
    · rfl
    · intro x hx
      rw [List.eq_of_mem_replicate hx]
      norm_num
  exact ⟨C4_round_bijective.1 0 (by norm_num) _ _ hv hv rfl,
    C4_round_bijective.2.1 0 (by norm_num) _ hv,
    C4_round_bijective.2.2.2 _ hv⟩

/-- C5: a final read of fewer than `R_BYTES` bytes makes the driver build
the zero-initialized `R_BYTES` buffer with the consumed bytes, the `0x01`
marker right after them and `0x80` ORed into the last byte (`0x81` when
both land on the final byte), XOR it in, permute once, and read no
further blocks (the rest of the stream is ignored). -/
theorem C5_final_block (st : State) (chunk : List Nat) (rest : List ReadResult)
    (h : chunk.length < R_BYTES) :
    keccak512Loop st (Except.ok chunk :: rest) =
      Except.ok (keccak_f (xor_lanes st (padBlock chunk))) ∧
    (padBlock chunk).length = R_BYTES ∧
    (chunk.length ≤ R_BYTES - 2 →
      padBlock chunk =
        chunk ++ 1 :: (List.replicate (R_BYTES - 2 - chunk.length) 0 ++ [0x80])) ∧
    (chunk.length = R_BYTES - 1 → padBlock chunk = chunk ++ [0x81]) :=
  ⟨loop_final st rest h, padBlock_length chunk,
   fun h2 => padBlock_eq_specPad h2, fun h2 => padBlock_last h2⟩

theorem C5_witness :
    keccak512Loop state0 [Except.ok [7]] =
      Except.ok (keccak_f (xor_lanes state0 (padBlock [7]))) ∧
    (padBlock [7]).length = R_BYTES ∧
    ([7] : List Nat).length ≤ R_BYTES - 2 ∧
    padBlock [7] = [7] ++ 1 :: (List.replicate (R_BYTES - 2 - 1) 0 ++ [0x80]) := by
  obtain ⟨h1, h2, h3, _⟩ := C5_final_block state0 [7] [] (by decide)
  exact ⟨h1, h2, by decide, h3 (by decide)⟩

/-- C6: an input of exactly `n` full blocks absorbs `n + 1` blocks — the
`n` full blocks followed by one pure-padding block `0x01, 0, …, 0x80` —
invoking the permutation once per absorbed block. -/
theorem C6_exact_multiple (n : Nat) (inp : List Nat) (st : State)
    (h : inp.length = n * R_BYTES) :
    keccak512Loop st (sliceReads inp) =
      Except.ok ((fullChunks inp ++ [padBlock []]).foldl absorbBlock st) ∧
    (fullChunks inp ++ [padBlock []]).length = n + 1 ∧
    padBlock [] = 1 :: (List.replicate (R_BYTES - 2) 0 ++ [0x80]) := by
  obtain ⟨h1, h2⟩ := loop_multiple n inp st h
  refine ⟨h1, by rw [List.length_append, h2]; rfl, ?_⟩
  rw [padBlock_eq_specPad (by decide)]
  rfl

theorem C6_witness :
    keccak512Loop state0 (sliceReads (List.replicate 72 0)) =
      Except.ok ((fullChunks (List.replicate 72 0) ++ [padBlock []]).foldl
        absorbBlock state0) ∧
    (fullChunks (List.replicate 72 0) ++ [padBlock []]).length = 1 + 1 ∧
    padBlock [] = 1 :: (List.replicate (R_BYTES - 2) 0 ++ [0x80]) :=
  C6_exact_multiple 1 (List.replicate 72 0) state0 (by decide)

/-- C7: the absorb-XOR touches exactly the `R_BYTES / 8 = 9` rate lanes —
each rate lane is XORed with the little-endian decoding of its 8-byte
group — and leaves length and every capacity lane unchanged. -/
theorem C7_xor_lanes_frame (st : State) (buf : List Nat) :
    (xor_lanes st buf).length = st.length ∧
    (∀ i, R_BYTES / 8 ≤ i → (xor_lanes st buf).getD i 0 = st.getD i 0) ∧
    (∀ i, i < R_BYTES / 8 → i < st.length →
      (xor_lanes st buf).getD i 0 = st.getD i 0 ^^^ laneFromBytes buf (8 * i)) ∧
    R_BYTES / 8 = 9 :=
  ⟨xor_lanes_length st buf, fun _ hi => xor_lanes_getD_capacity st buf hi,
   fun _ hi hl => xor_lanes_getD_rate buf hi hl, rfl⟩

theorem C7_witness :
    (xor_lanes (List.replicate 25 0) (List.range 72)).getD 10 0 =
      (List.replicate 25 (0 : Nat)).getD 10 0 :=
  (C7_xor_lanes_frame (List.replicate 25 0) (List.range 72)).2.1 10 (by decide)

/-- C8: a failing read aborts the absorb loop at once — whatever follows
it in the stream — surfacing exactly that error; the digest method then
leaves the caller's bytes untouched, and `with_512` yields the error and
no digest value. -/
theorem C8_error_propagation :
    (∀ (pre rest : List ReadResult) (st : State) (e : Nat),
      (∀ b ∈ pre, ∃ bs, b = Except.ok bs ∧ bs.length = R_BYTES) →
      keccak512Loop st (pre ++ Except.error e :: rest) = Except.error e) ∧
    (∀ (reads : List ReadResult) (e : Nat) (d : List Nat),
      keccak512Loop state0 reads = Except.error e →
      keccak512Method d reads = (Except.error e, d)) ∧
    (∀ (reads : List ReadResult) (e : Nat),
      keccak512Loop state0 reads = Except.error e →
      with_512 reads = Except.error e) :=
  ⟨fun pre rest st e hp => loop_error e pre rest st hp,
   fun _ e d h => method_error h d,
   fun _ e h => with512_error h⟩

theorem C8_witness :
    keccak512Loop state0 [Except.error 7] = Except.error 7 ∧
    keccak512Method [1, 2, 3] [Except.error 7] = (Except.error 7, [1, 2, 3]) ∧
    with_512 [Except.error 7] = Except.error 7 := by
  have h1 := C8_error_propagation.1 [] [Except.ok [9]] state0 7
    (fun b hb => absurd hb (List.not_mem_nil b))
  have h2 := C8_error_propagation.1 [] [] state0 7
    (fun b hb => absurd hb (List.not_mem_nil b))
  rw [List.nil_append] at h2
  exact ⟨h2, C8_error_propagation.2.1 _ 7 _ h2, C8_error_propagation.2.2 _ 7 h2⟩

/-- C9 (as written, refuted below): the `Debug` rendering of the 64-byte
`Digest` would be `"0x"` followed by the lowercase hex; in the code
`Debug` routes straight to `LowerHex` with no prefix, so the claim fails
at the zeroed digest. -/
theorem C9_counterexample :
    ¬ debugRender (List.replicate OUTPUT_LEN 0) =
      "0x" ++ lowerHex (List.replicate OUTPUT_LEN 0) := by
  decide

/-- C9 (amended): `Debug` and `Display` both render exactly the lowercase
hex — two lowercase hex digits per byte, in order, with no `0x` prefix. -/
theorem C9_debug_display_hex (d : List Nat) :
    debugRender d = lowerHex d ∧ displayRender d = lowerHex d ∧
    lowerHex d = String.mk ((d.map byteHex).flatten) ∧
    (lowerHex d).length = 2 * d.length :=
  ⟨rfl, rfl, rfl, lowerHex_length d⟩

/-- C10: under the buffered-reader contract (a final read shorter than
`R_BYTES`, a buffer of at least `R_BYTES` bytes for a 25-lane state),
every buffer access of the padding construction and of the lane codec is
in bounds: the bounds-checked variants succeed and compute the very same
values, and the two padding writes land inside the `R_BYTES` buffer. -/
theorem C10_in_bounds (chunk : List Nat) (st : State) (buf : List Nat)
    (hc : chunk.length < R_BYTES) (hst : st.length = 25)
    (hbuf : R_BYTES ≤ buf.length) :
    padBlockChecked chunk = some (padBlock chunk) ∧
    xorLanesChecked st buf = some (xor_lanes st buf) ∧
    chunk.length < (List.replicate R_BYTES (0 : Nat)).length ∧
    R_BYTES - 1 < (List.replicate R_BYTES (0 : Nat)).length :=
  ⟨padBlockChecked_eq hc, xorLanesChecked_eq hst hbuf,
   by rw [List.length_replicate]; exact hc, by decide⟩

theorem C10_witness :
    padBlockChecked [7] = some (padBlock [7]) ∧
    xorLanesChecked (List.replicate 25 0) (List.range 72) =
      some (xor_lanes (List.replicate 25 0) (List.range 72)) ∧
    ([7] : List Nat).length < (List.replicate R_BYTES (0 : Nat)).length ∧
    R_BYTES - 1 < (List.replicate R_BYTES (0 : Nat)).length :=
  C10_in_bounds [7] (List.replicate 25 0) (List.range 72)
    (by decide) (by decide) (by decide)

end KeccakLib
